import Mathlib

/-!
aactl: the Trivy converter (`pkg/vul/convert/trivy/trivy.go`) and the construction
of the command-line application (`cmd/aactl/cli/cmd.go`).

A shallow embedding of `Convert`, `convertNote`, `convertOccurrence`, `makeCPE`,
`getPackageType`, `getBasePackageIssue` and `newApp`, and the properties of the
conversion and of `newApp` proved over it.

Conventions of the embedding.

* A decoded JSON document is a `Json` tree. Go's `interface{}` value held by a
  `gabs.Container` is the tree itself; the Go value `nil` is `Json.null`.
* A `*gabs.Container` is an `Option Json`: `none` is the nil pointer.
* A Go run-time panic (a failed type assertion `x.(string)`) is `Go.panic`.
* The helpers of `pkg/utils` (`GetPrefixNoteName`, `ToGrafeasSeverity`, `ToGRPCTime`,
  `ToFloat32`, `ToCVSSv3`, `ToCVSS`, `ParsePackageType`) live outside `trivy.go`; every
  definition takes them as the parameter `u : Utils`, and every theorem holds for
  all of them.
-/

namespace Aactl

/-- A Go `float64`, kept as its IEEE 754 bit pattern (64 bits). -/
structure Float64 where
  bits : Nat
deriving DecidableEq, Repr

/-- A Go `float32`, kept as its IEEE 754 bit pattern (32 bits: sign, 8 exponent
bits, 23 fraction bits). The converter does no arithmetic on scores: it stores
them and compares them with `0`. -/
structure Float32 where
  bits : Nat
deriving DecidableEq, Repr

/-- The zero value of a `float32` field, and the constant `0`: the pattern of `+0`. -/
def Float32.zero : Float32 := { bits := 0 }

/-- The comparison `x == 0`: true exactly for `+0` and `-0`, the two patterns whose
31 bits below the sign bit are all clear. -/
def Float32.isZero (x : Float32) : Bool :=
  x.bits % 2147483648 == 0

/-- The value decoded from a JSON text (`encoding/json` into `interface{}`):
`nil`, `bool`, `float64`, `string`, `[]interface{}` or `map[string]interface{}`.
A map is listed as key/value pairs; a key is looked up at its first entry. -/
inductive Json where
  | null
  | bool (b : Bool)
  | num (x : Float64)
  | str (s : String)
  | arr (xs : List Json)
  | obj (kvs : List (String × Json))

/-- Outcome of running Go code that may panic. -/
inductive Go (α : Type) where
  | panic
  | ret (a : α)
deriving DecidableEq

/-- Sequencing: a panic in the first part ends the run. -/
def Go.bind {α β : Type} (x : Go α) (f : α → Go β) : Go β :=
  match x with
  | Go.panic => Go.panic
  | Go.ret a => f a

instance : Monad Go where
  pure := Go.ret
  bind := Go.bind

/-! ## gabs/v2: the read contract of `Container` -/

/-- Map access `mmap[key]` with the comma-ok result. -/
def lookupKey (key : String) : List (String × Json) → Option Json
  | [] => none
  | (k, v) :: rest => if k = key then some v else lookupKey key rest

/-- `(*Container).Data`: the wrapped value, `nil` for a nil container. -/
def Data : Option Json → Json
  | none => Json.null
  | some object => object

/-- One step of gabs' `searchStrict` for a path segment that is a field name: a map
is indexed by the segment, anything else fails. (On an array gabs accepts only `*`
or a decimal index; every segment the converter passes is a field name, for which
the array case fails as well.) -/
def searchSeg (object : Json) (pathSeg : String) : Option Json :=
  match object with
  | Json.obj kvs => lookupKey pathSeg kvs
  | _ => none

/-- `(*Container).Search(hierarchy...)`: starts from `g.Data()` and follows the
segments; the result is nil as soon as one segment fails, and otherwise a fresh
container around the value reached. With an empty hierarchy nothing can fail, so
the result is a non-nil container around `g.Data()`, also for a nil `g`. -/
def Search (g : Option Json) (hierarchy : List String) : Option Json :=
  hierarchy.foldl (fun c pathSeg => c.bind (fun object => searchSeg object pathSeg))
    (some (Data g))

/-- `(*Container).Exists(hierarchy...)`, which gabs/v2 defines as
`g.Search(hierarchy...) != nil`. Called without a path, as in
`s.Data.Search("Results").Exists()`, it is the test `g.Search() != nil`, which
holds for every `g`, the nil container included. -/
def Exists (g : Option Json) (hierarchy : List String) : Bool :=
  (Search g hierarchy).isSome

/-- `(*Container).Children`: the elements of an array in order, the values of a
map, and nil (no children) for anything else. Go does not fix the order in which
the values of a map are listed; the embedding lists them in the order of the
pairs. -/
def Children (g : Option Json) : List Json :=
  match Data g with
  | Json.arr xs => xs
  | Json.obj kvs => kvs.map Prod.snd
  | _ => []

/-- The type assertion `x.(string)`: panics unless `x` holds a string. -/
def assertString : Json → Go String
  | Json.str s => Go.ret s
  | _ => Go.panic

/-! ## grafeas messages (the fields the converter sets) -/

inductive Severity where
  | SEVERITY_UNSPECIFIED | MINIMAL | LOW | MEDIUM | HIGH | CRITICAL
deriving DecidableEq, Repr

inductive CVSSVersion where
  | CVSS_VERSION_UNSPECIFIED | CVSS_VERSION_2 | CVSS_VERSION_3
deriving DecidableEq, Repr

inductive VersionKind where
  | VERSION_KIND_UNSPECIFIED | NORMAL | MINIMUM | MAXIMUM
deriving DecidableEq, Repr

structure RelatedUrl where
  Url : String
  Label : String
deriving DecidableEq, Repr

structure Timestamp where
  seconds : Int
  nanos : Int
deriving DecidableEq, Repr

/-- The `CVSSv3` message built by `utils.ToCVSSv3`: base score and the metric
values read off the vector, by metric name. -/
structure CVSSv3 where
  BaseScore : Float32
  metrics : List (String × String)
deriving DecidableEq

/-- The `CVSS` message built by `utils.ToCVSS`: base score and the metric values
read off the vector, by metric name. -/
structure CVSS where
  BaseScore : Float32
  metrics : List (String × String)
deriving DecidableEq

structure Detail where
  AffectedCpeUri : String
  AffectedPackage : String
deriving DecidableEq, Repr

structure VulnerabilityNote where
  Details : List Detail
  Severity : Aactl.Severity
  SourceUpdateTime : Option Timestamp
  CvssVersion : Aactl.CVSSVersion
  CvssScore : Float32
  CvssV3 : Option CVSSv3
deriving DecidableEq

structure Note where
  ShortDescription : String
  LongDescription : String
  RelatedUrl : List RelatedUrl
  Vulnerability : VulnerabilityNote
deriving DecidableEq

structure Version where
  Name : String
  Kind : VersionKind
deriving DecidableEq, Repr

structure PackageIssue where
  PackageType : String
  AffectedCpeUri : String
  AffectedPackage : String
  AffectedVersion : Option Version
  FixedCpeUri : String
  FixedPackage : String
  FixedVersion : Option Version
deriving DecidableEq, Repr

structure VulnerabilityOccurrence where
  ShortDescription : String
  LongDescription : String
  RelatedUrls : List RelatedUrl
  CvssScore : Float32
  Severity : Aactl.Severity
  EffectiveSeverity : Aactl.Severity
  PackageIssue : List PackageIssue
  CvssVersion : Aactl.CVSSVersion
  Cvssv3 : Option CVSS
deriving DecidableEq

structure Occurrence where
  ResourceUri : String
  NoteName : String
  Vulnerability : VulnerabilityOccurrence
deriving DecidableEq

/-! ## `pkg/utils` and `pkg/types` -/

/-- The helpers of `pkg/utils` that the converter calls. -/
structure Utils where
  GetPrefixNoteName : String → String
  ToGrafeasSeverity : String → Severity
  ToGRPCTime : Json → Option Timestamp
  ToFloat32 : Json → Float32
  ToCVSSv3 : Float32 → String → Option CVSSv3
  ToCVSS : Float32 → String → Option CVSS
  ParsePackageType : String → String

/-- The fields of `utils.Source` that the converter reads. -/
structure Source where
  URI : String
  Project : String
  Data : Option Json

/-- Go `error` values returned by `Convert`. -/
inductive Error where
  | ErrInvalidSource
  | New (message : String)
deriving DecidableEq, Repr

/-- Holds `types.NoteOccurrences`: a note pointer and a slice of occurrence pointers. -/
structure NoteOccurrences where
  Note : Option Note
  Occurrences : List (Option Occurrence)
deriving DecidableEq

/-- Holds `types.NoteOccurrencesMap`, a Go `map[string]NoteOccurrences`, as the list
of its entries in the order in which the keys were first assigned. -/
abbrev NoteOccurrencesMap := List (String × NoteOccurrences)

/-- Map read `list[key]` with the comma-ok result. -/
def mapGet (key : String) : NoteOccurrencesMap → Option NoteOccurrences
  | [] => none
  | (k, e) :: rest => if k = key then some e else mapGet key rest

/-- Map assignment `list[key] = e`. -/
def mapSet (key : String) (e : NoteOccurrences) : NoteOccurrencesMap → NoteOccurrencesMap
  | [] => [(key, e)]
  | (k, e') :: rest => if k = key then (k, e) :: rest else (k, e') :: mapSet key e rest

/-! ## `trivy.go` -/

/-- The comparison `x == nil` on an `interface{}` value. -/
def isNil : Json → Bool
  | Json.null => true
  | _ => false

/-- The loop `for _, r := range v.Search("References").Children()` of both
builders: one `RelatedUrl` labelled `Url` per child, each child asserted to be a
string. -/
def referenceUrls : List Json → Go (List RelatedUrl)
  | [] => Go.ret []
  | r :: rest => do
    let url ← assertString (Data (some r))
    let urls ← referenceUrls rest
    Go.ret ({ Url := url, Label := "Url" } :: urls)

/-- `convertNote(s, v)`; `none` is the nil `*g.Note`. The caller passes a non-nil
source. -/
def convertNote (u : Utils) (s : Source) (v : Json) : Go (Option Note) := do
  let cve ← assertString (Data (Search (some v) ["VulnerabilityID"]))
  if isNil (Data (Search (some v) ["CVSS", "nvd"])) then
    Go.ret none
  else do
    let nvd := Search (some v) ["CVSS", "nvd"]
    let primaryURL ← assertString (Data (Search (some v) ["PrimaryURL"]))
    let severity ← assertString (Data (Search (some v) ["Severity"]))
    let n : Note :=
      { ShortDescription := cve
        LongDescription := ""
        RelatedUrl :=
          [ { Label := "Registry", Url := s.URI },
            { Label := "PrimaryURL", Url := primaryURL } ]
        Vulnerability :=
          { Details := [ { AffectedCpeUri := "N/A", AffectedPackage := "N/A" } ]
            Severity := u.ToGrafeasSeverity severity
            SourceUpdateTime := u.ToGRPCTime (Data (Search (some v) ["LastModifiedDate"]))
            CvssVersion := CVSSVersion.CVSS_VERSION_UNSPECIFIED
            CvssScore := Float32.zero
            CvssV3 := none } }
    -- CVSSv2
    let n ←
      if !isNil (Data (Search nvd ["V2Vector"])) then do
        let vector ← assertString (Data (Search nvd ["V2Vector"]))
        Go.ret { n with
          LongDescription := vector
          Vulnerability := { n.Vulnerability with
            CvssVersion := CVSSVersion.CVSS_VERSION_2
            CvssScore := u.ToFloat32 (Data (Search nvd ["V2Score"])) } }
      else Go.ret n
    -- CVSSv3, will override v2 values
    let n ←
      if !isNil (Data (Search nvd ["V3Vector"])) then do
        let vector ← assertString (Data (Search nvd ["V3Vector"]))
        Go.ret { n with
          LongDescription := vector
          Vulnerability := { n.Vulnerability with
            CvssVersion := CVSSVersion.CVSS_VERSION_3
            CvssScore := u.ToFloat32 (Data (Search nvd ["V3Score"]))
            CvssV3 := u.ToCVSSv3 (u.ToFloat32 (Data (Search nvd ["V3Score"]))) vector } }
      else Go.ret n
    -- References
    let urls ← referenceUrls (Children (Search (some v) ["References"]))
    Go.ret (some { n with RelatedUrl := n.RelatedUrl ++ urls })

/-- `makeCPE(v)`. -/
def makeCPE (v : Json) : Go String := do
  let src ← assertString (Data (Search (some v) ["SeveritySource"]))
  let pkgName ← assertString (Data (Search (some v) ["PkgName"]))
  let pkgVersion ← assertString (Data (Search (some v) ["InstalledVersion"]))
  Go.ret ("cpe:2.3:a:" ++ src ++ ":" ++ pkgName ++ ":" ++ pkgVersion ++ ":*:*:*:*:*:*:*")

/-- `getPackageType(r)`. -/
def getPackageType (u : Utils) (r : Json) : Go String := do
  let cls ← assertString (Data (Search (some r) ["Class"]))
  if cls ≠ "lang-pkgs" then
    Go.ret "OS"
  else do
    let ty ← assertString (Data (Search (some r) ["Type"]))
    Go.ret (u.ParsePackageType ty)

/-- `getBasePackageIssue(v, packageType)`. -/
def getBasePackageIssue (v : Json) (packageType : String) : Go PackageIssue := do
  let affectedCpeUri ← makeCPE v
  let affectedPackage ← assertString (Data (Search (some v) ["PkgName"]))
  let affectedVersion ← assertString (Data (Search (some v) ["InstalledVersion"]))
  let fixedCpeUri ← makeCPE v
  let fixedPackage ← assertString (Data (Search (some v) ["PkgName"]))
  Go.ret
    { PackageType := packageType
      AffectedCpeUri := affectedCpeUri
      AffectedPackage := affectedPackage
      AffectedVersion := some { Name := affectedVersion, Kind := VersionKind.NORMAL }
      FixedCpeUri := fixedCpeUri
      FixedPackage := fixedPackage
      FixedVersion := some { Name := "", Kind := VersionKind.MAXIMUM } }

/-- `convertOccurrence(s, v, noteID, packageType)`; `none` is the nil
`*g.Occurrence`. The caller passes a non-nil source. -/
def convertOccurrence (u : Utils) (s : Source) (v : Json) (noteID : String)
    (packageType : String) : Go (Option Occurrence) := do
  let cve ← assertString (Data (Search (some v) ["VulnerabilityID"]))
  let noteName := "projects/" ++ s.Project ++ "/notes/" ++ noteID
  if isNil (Data (Search (some v) ["CVSS", "nvd"])) then
    Go.ret none
  else do
    let nvd := Search (some v) ["CVSS", "nvd"]
    -- Create Occurrence
    let primaryURL ← assertString (Data (Search (some v) ["PrimaryURL"]))
    let severity ← assertString (Data (Search (some v) ["Severity"]))
    let effectiveSeverity ← assertString (Data (Search (some v) ["Severity"]))
    let o : VulnerabilityOccurrence :=
      { ShortDescription := cve
        LongDescription := ""
        RelatedUrls :=
          [ { Label := "Registry", Url := s.URI },
            { Label := "PrimaryURL", Url := primaryURL } ]
        CvssScore := u.ToFloat32 (Data (Search (some v) ["CVSS", "nvd", "V2Score"]))
        Severity := u.ToGrafeasSeverity severity
        EffectiveSeverity := u.ToGrafeasSeverity effectiveSeverity
        PackageIssue := []
        CvssVersion := CVSSVersion.CVSS_VERSION_UNSPECIFIED
        Cvssv3 := none }
    -- PackageIssues
    let issue ← getBasePackageIssue v packageType
    let o := { o with PackageIssue := o.PackageIssue ++ [issue] }
    -- CVSSv2
    let o ←
      if !isNil (Data (Search nvd ["V2Vector"])) then do
        let vector ← assertString (Data (Search nvd ["V2Vector"]))
        Go.ret { o with
          LongDescription := vector
          CvssVersion := CVSSVersion.CVSS_VERSION_2
          CvssScore := u.ToFloat32 (Data (Search nvd ["V2Score"])) }
      else Go.ret o
    -- CVSSv3, will override v2 values
    let o ←
      if !isNil (Data (Search nvd ["V3Vector"])) then do
        let vector ← assertString (Data (Search nvd ["V3Vector"]))
        Go.ret { o with
          LongDescription := vector
          CvssVersion := CVSSVersion.CVSS_VERSION_3
          CvssScore := u.ToFloat32 (Data (Search nvd ["V3Score"]))
          Cvssv3 := u.ToCVSS (u.ToFloat32 (Data (Search nvd ["V3Score"]))) vector }
      else Go.ret o
    -- References
    let urls ← referenceUrls (Children (Search (some v) ["References"]))
    Go.ret (some
      { ResourceUri := "https://" ++ s.URI
        NoteName := noteName
        Vulnerability := { o with RelatedUrls := o.RelatedUrls ++ urls } })

/-- The body of the inner loop of `Convert` for the finding `v` of the group `r`,
on the map built so far. -/
def convertFinding (u : Utils) (s : Source) (r v : Json) (list : NoteOccurrencesMap) :
    Go NoteOccurrencesMap := do
  -- create note
  let n ← convertNote u s v
  match n with
  | none => Go.ret list
  | some n =>
    -- don't add notes with no CVSS score
    if n.Vulnerability.CvssScore.isZero then
      Go.ret list
    else do
      let noteID := u.GetPrefixNoteName n.ShortDescription
      -- If cve is not found, add to map
      let list :=
        if (mapGet noteID list).isNone then
          mapSet noteID { Note := some n, Occurrences := [] } list
        else list
      let nocc := (mapGet noteID list).getD { Note := none, Occurrences := [] }
      let packageType ← getPackageType u r
      let occ ← convertOccurrence u s v noteID packageType
      let nocc := { nocc with Occurrences := nocc.Occurrences ++ [occ] }
      Go.ret (mapSet noteID nocc list)

/-- The inner loop `for _, v := range r.Search("Vulnerabilities").Children()`. -/
def rangeVulnerabilities (u : Utils) (s : Source) (r : Json) :
    List Json → NoteOccurrencesMap → Go NoteOccurrencesMap
  | [], list => Go.ret list
  | v :: rest, list => do
    let list ← convertFinding u s r v list
    rangeVulnerabilities u s r rest list

/-- The outer loop `for _, r := range s.Data.Search("Results").Children()`. -/
def rangeResults (u : Utils) (s : Source) :
    List Json → NoteOccurrencesMap → Go NoteOccurrencesMap
  | [], list => Go.ret list
  | r :: rest, list => do
    let list ← rangeVulnerabilities u s r (Children (Search (some r) ["Vulnerabilities"])) list
    rangeResults u s rest list

/-- `Convert(s)`: the pair of the returned map (`none` is the nil map) and the
returned error (`none` is the nil error). -/
def Convert (u : Utils) (s : Option Source) :
    Go (Option NoteOccurrencesMap × Option Error) :=
  match s with
  | none => Go.ret (none, some Error.ErrInvalidSource)
  | some s =>
    match s.Data with
    | none => Go.ret (none, some Error.ErrInvalidSource)
    | some _ =>
      if !Exists (Search s.Data ["Results"]) [] then
        Go.ret (none, some (Error.New "unable to find Results in source data"))
      else do
        let list ← rangeResults u s (Children (Search s.Data ["Results"])) []
        Go.ret (some list, none)


/-! ## The loop of `Convert`, one finding at a time -/

/-- What one included finding adds to the result: the note ID, the note and the
occurrence. -/
structure Contribution where
  noteID : String
  note : Note
  occ : Option Occurrence
deriving DecidableEq

/-- The part of the loop body of `Convert` that does not look at the map: build the
note, skip the finding (`none`) when there is no note or its score is `0`, and
otherwise build the note ID, the package type of the group and the occurrence. -/
def contribution (u : Utils) (s : Source) (r v : Json) : Go (Option Contribution) := do
  let n ← convertNote u s v
  match n with
  | none => Go.ret none
  | some n =>
    if n.Vulnerability.CvssScore.isZero then
      Go.ret none
    else do
      let noteID := u.GetPrefixNoteName n.ShortDescription
      let packageType ← getPackageType u r
      let occ ← convertOccurrence u s v noteID packageType
      Go.ret (some { noteID := noteID, note := n, occ := occ })

/-- The part of the loop body of `Convert` that updates the map with the
contribution of an included finding: insert the note if its ID is new, then append
the occurrence to the entry of that ID. -/
def addEntry (c : Contribution) (list : NoteOccurrencesMap) : NoteOccurrencesMap :=
  let list :=
    if (mapGet c.noteID list).isNone then
      mapSet c.noteID { Note := some c.note, Occurrences := [] } list
    else list
  let nocc := (mapGet c.noteID list).getD { Note := none, Occurrences := [] }
  mapSet c.noteID { nocc with Occurrences := nocc.Occurrences ++ [c.occ] } list

/-- The map after the contributions `cs` were added, in order, to `list`. -/
def collect (cs : List Contribution) (list : NoteOccurrencesMap) : NoteOccurrencesMap :=
  cs.foldl (fun acc c => addEntry c acc) list

/-- The findings of the result-groups `rs` in the order in which `Convert` visits
them, each paired with its group. -/
def findings : List Json → List (Json × Json)
  | [] => []
  | r :: rest =>
    (Children (Search (some r) ["Vulnerabilities"])).map (fun v => (r, v)) ++ findings rest

/-- The contributions of the findings `fs`, in order; a panic at any finding ends
the run. -/
def contributions (u : Utils) (s : Source) : List (Json × Json) → Go (List Contribution)
  | [] => Go.ret []
  | rv :: rest => do
    let c ← contribution u s rv.1 rv.2
    let cs ← contributions u s rest
    match c with
    | none => Go.ret cs
    | some c => Go.ret (c :: cs)

/-- The occurrences of the contributions with note ID `k`, in order. -/
def occurrencesOf (k : String) (cs : List Contribution) : List (Option Occurrence) :=
  (cs.filter (fun c => decide (c.noteID = k))).map (fun c => c.occ)

/-- The first contribution with note ID `k`. -/
def firstOf (k : String) (cs : List Contribution) : Option Contribution :=
  cs.find? (fun c => decide (c.noteID = k))

/-! ## The values the builders return

Closed forms of what `convertNote`, `convertOccurrence`, `makeCPE`,
`getBasePackageIssue` and `getPackageType` return when they do not panic, and of
the conditions under which they do not. The theorems `convertNote_eq`,
`convertOccurrence_eq`, `getPackageType_eq` relate them to the embedded code. -/

/-- Whether an `interface{}` value holds a string (the assertion `x.(string)`
succeeds). -/
def isString : Json → Bool
  | Json.str _ => true
  | _ => false

/-- The string held by a value, for a value that holds one. -/
def stringOf : Json → String
  | Json.str s => s
  | _ => ""

/-- A vector field that does not make a builder panic: absent, or a string. -/
def vectorOK (x : Json) : Bool :=
  isNil x || isString x

/-- The note that `convertNote` returns when it returns one. -/
def noteOf (u : Utils) (s : Source) (v : Json) : Note :=
  let nvd := Search (some v) ["CVSS", "nvd"]
  let n : Note :=
    { ShortDescription := stringOf (Data (Search (some v) ["VulnerabilityID"]))
      LongDescription := ""
      RelatedUrl :=
        [ { Label := "Registry", Url := s.URI },
          { Label := "PrimaryURL", Url := stringOf (Data (Search (some v) ["PrimaryURL"])) } ]
      Vulnerability :=
        { Details := [ { AffectedCpeUri := "N/A", AffectedPackage := "N/A" } ]
          Severity := u.ToGrafeasSeverity (stringOf (Data (Search (some v) ["Severity"])))
          SourceUpdateTime := u.ToGRPCTime (Data (Search (some v) ["LastModifiedDate"]))
          CvssVersion := CVSSVersion.CVSS_VERSION_UNSPECIFIED
          CvssScore := Float32.zero
          CvssV3 := none } }
  let n : Note :=
    if isNil (Data (Search nvd ["V2Vector"])) then n
    else { n with
      LongDescription := stringOf (Data (Search nvd ["V2Vector"]))
      Vulnerability := { n.Vulnerability with
        CvssVersion := CVSSVersion.CVSS_VERSION_2
        CvssScore := u.ToFloat32 (Data (Search nvd ["V2Score"])) } }
  let n : Note :=
    if isNil (Data (Search nvd ["V3Vector"])) then n
    else { n with
      LongDescription := stringOf (Data (Search nvd ["V3Vector"]))
      Vulnerability := { n.Vulnerability with
        CvssVersion := CVSSVersion.CVSS_VERSION_3
        CvssScore := u.ToFloat32 (Data (Search nvd ["V3Score"]))
        CvssV3 := u.ToCVSSv3 (u.ToFloat32 (Data (Search nvd ["V3Score"])))
          (stringOf (Data (Search nvd ["V3Vector"]))) } }
  let urls : List RelatedUrl :=
    (Children (Search (some v) ["References"])).map (fun r => { Url := stringOf r, Label := "Url" })
  { n with RelatedUrl := n.RelatedUrl ++ urls }

/-- The fields that `convertNote` asserts to be strings once `CVSS.nvd` is there. -/
def noteFieldsOK (v : Json) : Bool :=
  isString (Data (Search (some v) ["PrimaryURL"])) &&
  isString (Data (Search (some v) ["Severity"])) &&
  vectorOK (Data (Search (Search (some v) ["CVSS", "nvd"]) ["V2Vector"])) &&
  vectorOK (Data (Search (Search (some v) ["CVSS", "nvd"]) ["V3Vector"])) &&
  (Children (Search (some v) ["References"])).all isString

/-- The string that `makeCPE` returns when it returns. -/
def cpeOf (v : Json) : String :=
  "cpe:2.3:a:" ++ stringOf (Data (Search (some v) ["SeveritySource"])) ++ ":" ++
    stringOf (Data (Search (some v) ["PkgName"])) ++ ":" ++
    stringOf (Data (Search (some v) ["InstalledVersion"])) ++ ":*:*:*:*:*:*:*"

/-- The fields that `makeCPE` and `getBasePackageIssue` assert to be strings. -/
def packageFieldsOK (v : Json) : Bool :=
  isString (Data (Search (some v) ["SeveritySource"])) &&
  isString (Data (Search (some v) ["PkgName"])) &&
  isString (Data (Search (some v) ["InstalledVersion"]))

/-- The package issue that `getBasePackageIssue` returns when it returns. -/
def packageIssueOf (v : Json) (packageType : String) : PackageIssue :=
  { PackageType := packageType
    AffectedCpeUri := cpeOf v
    AffectedPackage := stringOf (Data (Search (some v) ["PkgName"]))
    AffectedVersion :=
      some { Name := stringOf (Data (Search (some v) ["InstalledVersion"])), Kind := VersionKind.NORMAL }
    FixedCpeUri := cpeOf v
    FixedPackage := stringOf (Data (Search (some v) ["PkgName"]))
    FixedVersion := some { Name := "", Kind := VersionKind.MAXIMUM } }

/-- The occurrence that `convertOccurrence` returns when it returns one. -/
def occurrenceOf (u : Utils) (s : Source) (v : Json) (noteID : String)
    (packageType : String) : Occurrence :=
  let nvd := Search (some v) ["CVSS", "nvd"]
  let o : VulnerabilityOccurrence :=
    { ShortDescription := stringOf (Data (Search (some v) ["VulnerabilityID"]))
      LongDescription := ""
      RelatedUrls :=
        [ { Label := "Registry", Url := s.URI },
          { Label := "PrimaryURL", Url := stringOf (Data (Search (some v) ["PrimaryURL"])) } ]
      CvssScore := u.ToFloat32 (Data (Search (some v) ["CVSS", "nvd", "V2Score"]))
      Severity := u.ToGrafeasSeverity (stringOf (Data (Search (some v) ["Severity"])))
      EffectiveSeverity := u.ToGrafeasSeverity (stringOf (Data (Search (some v) ["Severity"])))
      PackageIssue := [packageIssueOf v packageType]
      CvssVersion := CVSSVersion.CVSS_VERSION_UNSPECIFIED
      Cvssv3 := none }
  let o : VulnerabilityOccurrence :=
    if isNil (Data (Search nvd ["V2Vector"])) then o
    else { o with
      LongDescription := stringOf (Data (Search nvd ["V2Vector"]))
      CvssVersion := CVSSVersion.CVSS_VERSION_2
      CvssScore := u.ToFloat32 (Data (Search nvd ["V2Score"])) }
  let o : VulnerabilityOccurrence :=
    if isNil (Data (Search nvd ["V3Vector"])) then o
    else { o with
      LongDescription := stringOf (Data (Search nvd ["V3Vector"]))
      CvssVersion := CVSSVersion.CVSS_VERSION_3
      CvssScore := u.ToFloat32 (Data (Search nvd ["V3Score"]))
      Cvssv3 := u.ToCVSS (u.ToFloat32 (Data (Search nvd ["V3Score"])))
        (stringOf (Data (Search nvd ["V3Vector"]))) }
  let urls : List RelatedUrl :=
    (Children (Search (some v) ["References"])).map (fun r => { Url := stringOf r, Label := "Url" })
  { ResourceUri := "https://" ++ s.URI
    NoteName := "projects/" ++ s.Project ++ "/notes/" ++ noteID
    Vulnerability := { o with RelatedUrls := o.RelatedUrls ++ urls } }

/-- The fields of a result-group that `getPackageType` asserts to be strings:
`Class`, and `Type` when the class is `lang-pkgs`. -/
def groupFieldsOK (r : Json) : Bool :=
  isString (Data (Search (some r) ["Class"])) &&
  (stringOf (Data (Search (some r) ["Class"])) != "lang-pkgs" ||
    isString (Data (Search (some r) ["Type"])))

/-- The package type that `getPackageType` returns when it returns. -/
def packageTypeOf (u : Utils) (r : Json) : String :=
  if stringOf (Data (Search (some r) ["Class"])) ≠ "lang-pkgs" then "OS"
  else u.ParsePackageType (stringOf (Data (Search (some r) ["Type"])))

/-- Whether the loop body of `Convert` runs to its end on the finding `v` of the
group `r`: the identifier is a string and, when `CVSS.nvd` is there, so are the
fields the note builder asserts and, when the score of the note is not `0`, the
fields that `getPackageType` and the occurrence builder assert. -/
def findingOK (u : Utils) (s : Source) (r v : Json) : Bool :=
  isString (Data (Search (some v) ["VulnerabilityID"])) &&
  (isNil (Data (Search (some v) ["CVSS", "nvd"])) ||
    (noteFieldsOK v &&
      ((noteOf u s v).Vulnerability.CvssScore.isZero ||
        (groupFieldsOK r && packageFieldsOK v))))

/-- Whether the finding `v` passes the gate of `Convert`: a note is built and its
score is not `0`. -/
def included (u : Utils) (s : Source) (v : Json) : Bool :=
  !isNil (Data (Search (some v) ["CVSS", "nvd"])) &&
  !(noteOf u s v).Vulnerability.CvssScore.isZero

/-- The contribution of an included finding `v` of the group `r`. -/
def contributionOf (u : Utils) (s : Source) (r v : Json) : Contribution :=
  { noteID := u.GetPrefixNoteName (noteOf u s v).ShortDescription
    note := noteOf u s v
    occ := some (occurrenceOf u s v (u.GetPrefixNoteName (noteOf u s v).ShortDescription)
      (packageTypeOf u r)) }

/-- All findings of a source document, in the order in which `Convert` visits
them, each paired with its group. -/
def findingsOf (d : Json) : List (Json × Json) :=
  findings (Children (Search (some d) ["Results"]))

/-- Whether the finding `v` passes the gate of `Convert` under the note ID `k`:
`convertNote` returns a note, its score is not `0`, and its note ID is `k`. -/
def includedAs (u : Utils) (s : Source) (k : String) (v : Json) : Bool :=
  match convertNote u s v with
  | Go.ret (some n) =>
    !n.Vulnerability.CvssScore.isZero && decide (u.GetPrefixNoteName n.ShortDescription = k)
  | _ => false

/-- Whether the finding `v` passes the gate of `Convert`: `convertNote` returns a
note and its score is not `0`. -/
def passesGate (u : Utils) (s : Source) (v : Json) : Bool :=
  match convertNote u s v with
  | Go.ret (some n) => !n.Vulnerability.CvssScore.isZero
  | _ => false

/-- The number of occurrences in a map, over all its entries. -/
def totalOccurrences (m : NoteOccurrencesMap) : Nat :=
  (m.map (fun entry => entry.2.Occurrences.length)).sum

/-! ## Removing findings from a document -/

/-- Whether the finding carries a `V2Vector` or a `V3Vector` under `CVSS.nvd`. -/
def hasVector (v : Json) : Bool :=
  !isNil (Data (Search (Search (some v) ["CVSS", "nvd"]) ["V2Vector"])) ||
  !isNil (Data (Search (Search (some v) ["CVSS", "nvd"]) ["V3Vector"]))

/-- The map `j` with the value of its field `key` replaced by its image under `f`;
a value that is not a map is left as it is. -/
def mapField (key : String) (f : Json → Json) : Json → Json
  | Json.obj kvs => Json.obj (kvs.map (fun kv => if kv.1 = key then (kv.1, f kv.2) else kv))
  | j => j

/-- The container `j` with each of its children replaced by its image under `f`. -/
def mapChildren (f : Json → Json) : Json → Json
  | Json.arr xs => Json.arr (xs.map f)
  | Json.obj kvs => Json.obj (kvs.map (fun kv => (kv.1, f kv.2)))
  | j => j

/-- The container `j` with only those of its children that satisfy `p`. -/
def filterChildren (p : Json → Bool) : Json → Json
  | Json.arr xs => Json.arr (xs.filter p)
  | Json.obj kvs => Json.obj (kvs.filter (fun kv => p kv.2))
  | j => j

/-- The result-group `r` without the findings that have no vector. -/
def groupWithoutUnscored (r : Json) : Json :=
  mapField "Vulnerabilities" (filterChildren hasVector) r

/-- The document `d` with every finding that has neither a `V2Vector` nor a
`V3Vector` removed from the `Vulnerabilities` of its result-group. -/
def withoutUnscored (d : Json) : Json :=
  mapField "Results" (mapChildren groupWithoutUnscored) d

/-! ## Helpers and documents for worked examples

The theorems hold for every choice `u : Utils` of the helpers. Where a statement is
checked on a concrete document, the helpers below are used. -/

/-- The quotient `n / d` rounded to the nearest integer, ties to even. -/
def roundHalfEven (n d : Nat) : Nat :=
  if 2 * (n % d) > d ∨ (2 * (n % d) = d ∧ n / d % 2 = 1) then n / d + 1 else n / d

/-- The Go conversion `float32(x)` of a `float64`, on bit patterns: round to nearest,
ties to even; overflow gives an infinity, a NaN stays a NaN. -/
def Float64.toFloat32 (x : Float64) : Float32 :=
  let sign := x.bits / 2 ^ 63 % 2
  let e := x.bits / 2 ^ 52 % 2048
  let m := x.bits % 2 ^ 52
  let magnitude :=
    if e = 2047 then
      if m = 0 then 0x7F800000 else 0x7FC00000 + m / 2 ^ 29 % 2 ^ 22
    else if e = 0 ∧ m = 0 then 0
    else if e ≥ 897 then
      min 0x7F800000 ((e - 897) * 2 ^ 23 + roundHalfEven (2 ^ 52 + m) (2 ^ 29))
    else
      roundHalfEven (if e = 0 then m else 2 ^ 52 + m) (2 ^ (926 - max e 1))
  { bits := sign * 2 ^ 31 + magnitude }

/-- One choice of the `pkg/utils` helpers: the note ID is the identifier itself,
the severity names of the scanner map to the severity of the same name, a number
is narrowed to `float32` and any other score value (absent, in particular) is `0`,
the time is the epoch, and the package type of an ecosystem is its name. -/
def exampleUtils : Utils where
  GetPrefixNoteName := fun name => name
  ToGrafeasSeverity := fun severity =>
    if severity = "CRITICAL" then Severity.CRITICAL
    else if severity = "HIGH" then Severity.HIGH
    else if severity = "MEDIUM" then Severity.MEDIUM
    else if severity = "LOW" then Severity.LOW
    else Severity.SEVERITY_UNSPECIFIED
  ToGRPCTime := fun _ => some { seconds := 0, nanos := 0 }
  ToFloat32 := fun value =>
    match value with
    | Json.num x => x.toFloat32
    | _ => Float32.zero
  ToCVSSv3 := fun score _ => some { BaseScore := score, metrics := [] }
  ToCVSS := fun score _ => some { BaseScore := score, metrics := [] }
  ParsePackageType := fun ecosystem => ecosystem

/-- A finding with the given identifier and `CVSS.nvd` value, and with every string
field that the builders read. -/
def exampleFinding (cve : String) (nvd : Json) : Json :=
  Json.obj
    [ ("VulnerabilityID", Json.str cve),
      ("PkgName", Json.str "left-pad"),
      ("InstalledVersion", Json.str "1.0.0"),
      ("SeveritySource", Json.str "nvd"),
      ("PrimaryURL", Json.str "https://avd.aquasec.com/nvd/cve"),
      ("Severity", Json.str "HIGH"),
      ("CVSS", Json.obj [("nvd", nvd)]),
      ("References", Json.arr [Json.str "https://example.com/advisory"]) ]

/-- A document with one result-group of class `lang-pkgs` and type `npm` that holds
the given findings. -/
def exampleDocument (vulnerabilities : List Json) : Json :=
  Json.obj
    [ ("SchemaVersion", Json.num { bits := 0x4000000000000000 }),
      ("Results", Json.arr
        [ Json.obj
            [ ("Target", Json.str "package-lock.json"),
              ("Class", Json.str "lang-pkgs"),
              ("Type", Json.str "npm"),
              ("Vulnerabilities", Json.arr vulnerabilities) ] ]) ]

/-- A source for the given document. -/
def exampleSource (document : Json) : Source :=
  { URI := "us-docker.pkg.dev/project/repo/image@sha256:abc"
    Project := "project"
    Data := some document }

/-- The `float64` 7.5. -/
def f7_5 : Float64 := { bits := 0x401E000000000000 }

/-- The `float64` 9.8. -/
def f9_8 : Float64 := { bits := 0x402399999999999A }

/-- The `float64` 5.0. -/
def f5_0 : Float64 := { bits := 0x4014000000000000 }

/-- `CVSS.nvd` with both a version 2 and a version 3 vector and score. -/
def nvdBoth : Json :=
  Json.obj
    [ ("V2Vector", Json.str "AV:N/AC:L/Au:N/C:P/I:N/A:N"),
      ("V2Score", Json.num f5_0),
      ("V3Vector", Json.str "CVSS:3.1/AV:N/AC:L/PR:N/UI:N/S:U/C:H/I:N/A:N"),
      ("V3Score", Json.num f7_5) ]

/-- `CVSS.nvd` with a version 3 vector and the given score. -/
def nvdV3 (score : Float64) : Json :=
  Json.obj
    [ ("V3Vector", Json.str "CVSS:3.1/AV:N/AC:L/PR:N/UI:N/S:U/C:H/I:N/A:N"),
      ("V3Score", Json.num score) ]

/-- A document with two findings: one with version 3 data, one whose `CVSS.nvd`
holds a score but no vector. -/
def documentWithUnscored : Json :=
  exampleDocument
    [ exampleFinding "CVE-2021-1234" (nvdV3 f7_5),
      exampleFinding "CVE-2021-5678" (Json.obj [("V2Score", Json.num f5_0)]) ]

/-- A document with two findings of the same identifier, both with version 3
data: the first with score 7.5, the second with score 9.8. -/
def documentSharedID : Json :=
  exampleDocument
    [ exampleFinding "CVE-2021-1234" (nvdV3 f7_5),
      exampleFinding "CVE-2021-1234" (nvdV3 f9_8) ]

/-- A document with three findings with version 3 data, the first and the third of
the same identifier. -/
def documentInterleaved : Json :=
  exampleDocument
    [ exampleFinding "CVE-2021-1234" (nvdV3 f7_5),
      exampleFinding "CVE-2021-5678" (nvdV3 f9_8),
      exampleFinding "CVE-2021-1234" (nvdV3 f5_0) ]

/-- A document with two result-groups, each with one finding with version 3 data:
an operating-system group without a `Type`, and a `lang-pkgs` group of type `npm`. -/
def documentTwoGroups : Json :=
  Json.obj
    [ ("Results", Json.arr
        [ Json.obj
            [ ("Target", Json.str "debian"),
              ("Class", Json.str "os-pkgs"),
              ("Vulnerabilities", Json.arr [exampleFinding "CVE-2021-1234" (nvdV3 f7_5)]) ],
          Json.obj
            [ ("Target", Json.str "package-lock.json"),
              ("Class", Json.str "lang-pkgs"),
              ("Type", Json.str "npm"),
              ("Vulnerabilities", Json.arr [exampleFinding "CVE-2021-5678" (nvdV3 f9_8)]) ] ]) ]

/-- A finding with version 3 data and every string field that the builders read,
except `PrimaryURL`. -/
def findingWithoutPrimaryURL : Json :=
  Json.obj
    [ ("VulnerabilityID", Json.str "CVE-2021-1234"),
      ("PkgName", Json.str "left-pad"),
      ("InstalledVersion", Json.str "1.0.0"),
      ("SeveritySource", Json.str "nvd"),
      ("Severity", Json.str "HIGH"),
      ("CVSS", Json.obj [("nvd", nvdV3 f7_5)]) ]

/-- A finding with version 3 data and the string fields that the builders assert,
without `LastModifiedDate` and without `References`. -/
def findingMinimal : Json :=
  Json.obj
    [ ("VulnerabilityID", Json.str "CVE-2021-1234"),
      ("PkgName", Json.str "left-pad"),
      ("InstalledVersion", Json.str "1.0.0"),
      ("SeveritySource", Json.str "nvd"),
      ("PrimaryURL", Json.str "https://avd.aquasec.com/nvd/cve"),
      ("Severity", Json.str "HIGH"),
      ("CVSS", Json.obj [("nvd", nvdV3 f7_5)]) ]

/-- A finding that has only an identifier. -/
def findingBare : Json :=
  Json.obj [("VulnerabilityID", Json.str "CVE-2021-5678")]

/-- `CVSS.nvd` with a version 3 vector and no score. -/
def nvdV3NoScore : Json :=
  Json.obj [("V3Vector", Json.str "CVSS:3.1/AV:N/AC:L/PR:N/UI:N/S:U/C:H/I:N/A:N")]

/-- `CVSS.nvd` with a version 2 score and no vector. -/
def nvdNoVector : Json :=
  Json.obj [("V2Score", Json.num f5_0)]

/-- A finding with version 3 data and three references. -/
def findingThreeReferences : Json :=
  Json.obj
    [ ("VulnerabilityID", Json.str "CVE-2021-1234"),
      ("PkgName", Json.str "left-pad"),
      ("InstalledVersion", Json.str "1.0.0"),
      ("SeveritySource", Json.str "nvd"),
      ("PrimaryURL", Json.str "https://avd.aquasec.com/nvd/cve"),
      ("Severity", Json.str "CRITICAL"),
      ("CVSS", Json.obj [("nvd", nvdV3 f9_8)]),
      ("References", Json.arr
        [ Json.str "https://example.com/a",
          Json.str "https://example.com/b",
          Json.str "https://example.com/c" ]) ]

/-- The `float32` 7.5. -/
def f32_7_5 : Float32 := { bits := 0x40F00000 }

/-- The finding of the end-to-end example: identifier `CVE-2021-1234`, severity
`HIGH`, version 3 vector `vector` with score 7.5, package `left-pad` 1.0.0; followed
by the fields `extra`. -/
def endToEndFinding (vector : String) (extra : List (String × Json)) : Json :=
  Json.obj
    ([ ("VulnerabilityID", Json.str "CVE-2021-1234"),
       ("Severity", Json.str "HIGH"),
       ("CVSS", Json.obj
         [("nvd", Json.obj [("V3Vector", Json.str vector), ("V3Score", Json.num f7_5)])]),
       ("PkgName", Json.str "left-pad"),
       ("InstalledVersion", Json.str "1.0.0") ] ++ extra)

/-- The document of the end-to-end example: one result-group of class `lang-pkgs`
and type `npm` with the one finding `finding`. -/
def endToEndDocument (finding : Json) : Json :=
  Json.obj
    [ ("Results", Json.arr
        [ Json.obj
            [ ("Class", Json.str "lang-pkgs"),
              ("Type", Json.str "npm"),
              ("Vulnerabilities", Json.arr [finding]) ] ]) ]

/-- The finding of the end-to-end example with, in addition, a `PrimaryURL` and a
`SeveritySource`. -/
def endToEndComplete (vector primaryURL src : String) : Json :=
  endToEndFinding vector
    [("PrimaryURL", Json.str primaryURL), ("SeveritySource", Json.str src)]

/-- A source with the given registry URI and project for the document of the
end-to-end example with the finding `finding`. -/
def endToEndSource (uri project : String) (finding : Json) : Source :=
  { URI := uri
    Project := project
    Data := some (endToEndDocument finding) }

/-- `CVSS.nvd` with a version 2 vector and the given score. -/
def nvdV2 (score : Float64) : Json :=
  Json.obj
    [ ("V2Vector", Json.str "AV:N/AC:L/Au:N/C:P/I:N/A:N"),
      ("V2Score", Json.num score) ]

/-- A document with a version 2 finding, a version 3 finding, a finding with both
versions and a finding without scoring data, under three identifiers. -/
def documentMixed : Json :=
  exampleDocument
    [ exampleFinding "CVE-2020-0001" (nvdV2 f5_0),
      exampleFinding "CVE-2021-1234" (nvdV3 f7_5),
      exampleFinding "CVE-2020-0001" nvdBoth,
      exampleFinding "CVE-2022-9999" nvdNoVector ]

/-- A finding whose `CVSS.nvd` holds a version 2 score and no vector, and that has
no `PrimaryURL`. -/
def findingUnscoredWithoutPrimaryURL : Json :=
  Json.obj
    [ ("VulnerabilityID", Json.str "CVE-2021-5678"),
      ("PkgName", Json.str "left-pad"),
      ("InstalledVersion", Json.str "1.0.0"),
      ("SeveritySource", Json.str "nvd"),
      ("Severity", Json.str "HIGH"),
      ("CVSS", Json.obj [("nvd", nvdNoVector)]) ]

/-- A document with a finding with version 3 data, followed by a finding without
a vector and without `PrimaryURL`. -/
def documentUnscoredPanics : Json :=
  exampleDocument
    [ exampleFinding "CVE-2021-1234" (nvdV3 f7_5),
      findingUnscoredWithoutPrimaryURL ]

/-! ## `cmd/aactl/cli/cmd.go` -/

namespace Cli

/-- A `time.Time`, as the instant it denotes (nanoseconds since the epoch). -/
structure Time where
  unixNano : Int
deriving DecidableEq, Repr

/-- The part of package `time` that `newApp` uses: `time.Parse(layout, value)`
(`none` for a parse error), the reading `time.Now()` of the clock at the call, and
`t.UTC().Format(layout)`. -/
structure TimeEnv where
  Parse : String → String → Option Time
  Now : Time
  FormatUTC : Time → String → String

/-- Go `error` values of `newApp`: the sentinel `types.ErrMissingRequiredFields` and
`errors.Wrap(cause, message)`. -/
inductive CliError where
  | ErrMissingRequiredFields
  | Wrap (cause : CliError) (message : String)
deriving DecidableEq, Repr

/-- A value of the `map[string]interface{}` in `App.Metadata`. -/
inductive MetaValue where
  | str (s : String)
  | bool (b : Bool)
deriving DecidableEq, Repr

/-- The fields of a `cli.BoolFlag` that `newApp` sets, the `Action` aside. -/
structure BoolFlag where
  Name : String
  Aliases : List String
  Usage : String
deriving DecidableEq, Repr

/-- A `cli.Command`; `impCmd` and `attestCmd` are declared in other files of the
package and are parameters here. -/
structure Command where
  Name : String
deriving DecidableEq, Repr

/-- The fields of `cli.App` that `newApp` sets. `Metadata` lists the entries of the
map. -/
structure App where
  EnableBashCompletion : Bool
  Suggest : Bool
  Name : String
  Version : String
  Usage : String
  Compiled : Time
  Flags : List BoolFlag
  Metadata : List (String × MetaValue)
  Commands : List Command
deriving DecidableEq, Repr

/-- The constant `name`. -/
def name : String := "aactl"

/-- The constant `metaKeyVersion`. -/
def metaKeyVersion : String := "version"

/-- The constant `metaKeyCommit`. -/
def metaKeyCommit : String := "commit"

/-- The constant `metaKeyDate`. -/
def metaKeyDate : String := "date"

/-- Map read `m[key]` on `App.Metadata`, with the comma-ok result. -/
def metaGet (key : String) : List (String × MetaValue) → Option MetaValue
  | [] => none
  | (k, x) :: rest => if k = key then some x else metaGet key rest

/-- `newApp(version, commit, date)`: the pair of the returned app (`none` is nil)
and the returned error (`none` is nil). -/
def newApp (env : TimeEnv) (impCmd attestCmd : Command) (version commit date : String) :
    Option App × Option CliError :=
  if version = "" ∨ commit = "" ∨ date = "" then
    (none, some (CliError.Wrap CliError.ErrMissingRequiredFields
      "version, commit, and date must be set"))
  else
    let compileTime :=
      match env.Parse "2006-01-02T15:04:05Z" date with
      | some t => t
      | none => env.Now
    let dateStr := env.FormatUTC compileTime "2006-01-02 15:04 UTC"
    (some
      { EnableBashCompletion := true
        Suggest := true
        Name := name
        Version := version ++ " (commit: " ++ commit ++ ", built: " ++ dateStr ++ ")"
        Usage := "vulnerability management tool"
        Compiled := compileTime
        Flags :=
          [ { Name := "debug", Aliases := [], Usage := "verbose output" },
            { Name := "quiet", Aliases := ["q"], Usage := "suppress output unless error" } ]
        Metadata :=
          [ (metaKeyVersion, MetaValue.str version),
            (metaKeyCommit, MetaValue.str commit),
            (metaKeyDate, MetaValue.str date) ]
        Commands := [impCmd, attestCmd] },
      none)

/-- A clock and parser for worked examples: no date parses, and the clock reads
the epoch. -/
def exampleTimeEnv : TimeEnv where
  Parse := fun _ _ => none
  Now := { unixNano := 0 }
  FormatUTC := fun _ _ => "1970-01-01 00:00 UTC"

end Cli


/-! ## Basic lemmas -/

@[simp] theorem Go.pure_eq {α : Type} (a : α) : (pure a : Go α) = Go.ret a := rfl

@[simp] theorem Go.bind_eq {α β : Type} (x : Go α) (f : α → Go β) :
    (x >>= f) = Go.bind x f := rfl

@[simp] theorem Go.bind_ret {α β : Type} (a : α) (f : α → Go β) :
    Go.bind (Go.ret a) f = f a := rfl

@[simp] theorem Go.bind_panic {α β : Type} (f : α → Go β) :
    Go.bind (Go.panic : Go α) f = Go.panic := rfl

theorem Go.bind_eq_ret {α β : Type} {x : Go α} {f : α → Go β} {b : β} :
    Go.bind x f = Go.ret b ↔ ∃ a, x = Go.ret a ∧ f a = Go.ret b := by
  cases x <;> simp

theorem Go.bind_assoc {α β γ : Type} (x : Go α) (f : α → Go β) (g : β → Go γ) :
    Go.bind (Go.bind x f) g = Go.bind x (fun a => Go.bind (f a) g) := by
  cases x <;> simp

theorem mapGet_mapSet_self (k : String) (e : NoteOccurrences) (m : NoteOccurrencesMap) :
    mapGet k (mapSet k e m) = some e := by
  induction m with
  | nil => simp [mapSet, mapGet]
  | cons p rest ih =>
    obtain ⟨k', e'⟩ := p
    by_cases h : k' = k <;> simp [mapSet, mapGet, h, ih]

theorem mapGet_mapSet_ne {k k' : String} (h : k' ≠ k) (e : NoteOccurrences)
    (m : NoteOccurrencesMap) : mapGet k' (mapSet k e m) = mapGet k' m := by
  induction m with
  | nil => simp [mapSet, mapGet, Ne.symm h]
  | cons p rest ih =>
    obtain ⟨k₁, e₁⟩ := p
    by_cases h₁ : k₁ = k
    · subst h₁
      simp [mapSet, mapGet, Ne.symm h]
    · by_cases h₂ : k₁ = k'
      · subst h₂
        simp [mapSet, mapGet, h₁]
      · simp [mapSet, mapGet, h₁, h₂, ih]

/-- The loop body of `Convert` is its map-independent part followed by the map
update. -/
theorem convertFinding_eq (u : Utils) (s : Source) (r v : Json) (list : NoteOccurrencesMap) :
    convertFinding u s r v list =
      Go.bind (contribution u s r v) (fun c =>
        match c with
        | none => Go.ret list
        | some c => Go.ret (addEntry c list)) := by
  unfold convertFinding contribution
  simp only [Go.bind_eq, Go.pure_eq]
  cases convertNote u s v with
  | panic => rfl
  | ret n =>
    cases n with
    | none => rfl
    | some n =>
      simp only [Go.bind_ret]
      by_cases hz : n.Vulnerability.CvssScore.isZero = true
      · simp [hz]
      · rw [if_neg hz, if_neg hz]
        cases getPackageType u r with
        | panic => rfl
        | ret pt =>
          simp only [Go.bind_ret]
          cases convertOccurrence u s v (u.GetPrefixNoteName n.ShortDescription) pt with
          | panic => rfl
          | ret occ => rfl

theorem collect_append (cs₁ cs₂ : List Contribution) (list : NoteOccurrencesMap) :
    collect (cs₁ ++ cs₂) list = collect cs₂ (collect cs₁ list) := by
  simp [collect, List.foldl_append]

theorem contributions_cons (u : Utils) (s : Source) (rv : Json × Json)
    (rest : List (Json × Json)) :
    contributions u s (rv :: rest) =
      Go.bind (contribution u s rv.1 rv.2) (fun c =>
        Go.bind (contributions u s rest) (fun cs =>
          match c with
          | none => Go.ret cs
          | some c => Go.ret (c :: cs))) := rfl

theorem contributions_append (u : Utils) (s : Source) (fs₁ fs₂ : List (Json × Json)) :
    contributions u s (fs₁ ++ fs₂) =
      Go.bind (contributions u s fs₁) (fun cs₁ =>
        Go.bind (contributions u s fs₂) (fun cs₂ => Go.ret (cs₁ ++ cs₂))) := by
  induction fs₁ with
  | nil =>
    simp only [List.nil_append, contributions, Go.bind_ret]
    cases contributions u s fs₂ <;> simp
  | cons rv rest ih =>
    rw [List.cons_append, contributions_cons, contributions_cons, ih]
    cases contribution u s rv.1 rv.2 with
    | panic => rfl
    | ret c =>
      simp only [Go.bind_ret]
      cases contributions u s rest with
      | panic => rfl
      | ret cs₁ =>
        simp only [Go.bind_ret]
        cases contributions u s fs₂ with
        | panic => cases c <;> rfl
        | ret cs₂ => cases c <;> rfl

/-- The inner loop adds the contributions of the findings it visits. -/
theorem rangeVulnerabilities_eq (u : Utils) (s : Source) (r : Json) (vs : List Json)
    (list : NoteOccurrencesMap) :
    rangeVulnerabilities u s r vs list =
      Go.bind (contributions u s (vs.map (fun v => (r, v))))
        (fun cs => Go.ret (collect cs list)) := by
  induction vs generalizing list with
  | nil => rfl
  | cons v rest ih =>
    rw [List.map_cons, contributions_cons]
    simp only [rangeVulnerabilities, Go.bind_eq, convertFinding_eq, ih]
    cases contribution u s r v with
    | panic => rfl
    | ret c =>
      simp only [Go.bind_ret]
      cases c with
      | none =>
        simp only [Go.bind_ret]
        cases contributions u s (rest.map (fun v => (r, v))) <;> rfl
      | some c =>
        simp only [Go.bind_ret]
        cases contributions u s (rest.map (fun v => (r, v))) <;> rfl

/-- The outer loop adds the contributions of all findings, in document order. -/
theorem rangeResults_eq (u : Utils) (s : Source) (rs : List Json)
    (list : NoteOccurrencesMap) :
    rangeResults u s rs list =
      Go.bind (contributions u s (findings rs)) (fun cs => Go.ret (collect cs list)) := by
  induction rs generalizing list with
  | nil => rfl
  | cons r rest ih =>
    simp only [rangeResults, findings, Go.bind_eq, rangeVulnerabilities_eq, ih,
      contributions_append]
    cases contributions u s
        ((Children (Search (some r) ["Vulnerabilities"])).map (fun v => (r, v))) with
    | panic => rfl
    | ret cs₁ =>
      simp only [Go.bind_ret]
      cases contributions u s (findings rest) with
      | panic => rfl
      | ret cs₂ => simp [collect_append]

/-- The test `s.Data.Search("Results").Exists()` of `Convert` holds for every
container: `Exists` without a path never fails. -/
theorem Exists_nil_path (g : Option Json) : Exists g [] = true := rfl

/-- For a source with a data payload `Convert` returns the map collected from the
contributions of all findings and no error, unless a finding panics. -/
theorem Convert_eq (u : Utils) (s : Source) (d : Json) (hd : s.Data = some d) :
    Convert u (some s) =
      Go.bind (contributions u s (findings (Children (Search (some d) ["Results"]))))
        (fun cs => Go.ret (some (collect cs []), none)) := by
  simp only [Convert, hd, Exists_nil_path, Go.bind_eq, rangeResults_eq]
  cases contributions u s (findings (Children (Search (some d) ["Results"]))) <;> rfl

theorem mapGet_addEntry_self (c : Contribution) (m : NoteOccurrencesMap) :
    mapGet c.noteID (addEntry c m) =
      some (match mapGet c.noteID m with
        | some e => { e with Occurrences := e.Occurrences ++ [c.occ] }
        | none => { Note := some c.note, Occurrences := [c.occ] }) := by
  unfold addEntry
  simp only [mapGet_mapSet_self]
  cases h : mapGet c.noteID m with
  | none => simp [mapGet_mapSet_self]
  | some e => simp [h]

theorem mapGet_addEntry_ne {k : String} (c : Contribution) (h : k ≠ c.noteID)
    (m : NoteOccurrencesMap) : mapGet k (addEntry c m) = mapGet k m := by
  unfold addEntry
  simp only [mapGet_mapSet_ne h]
  split
  · exact mapGet_mapSet_ne h _ _
  · rfl

/-- The entry of `k` after adding the contributions `cs` to `m`: an entry already
in `m` keeps its note and gets the occurrences of `k` appended; a new entry takes
the note of the first contribution of `k` and all occurrences of `k`. -/
theorem mapGet_collect (k : String) (cs : List Contribution) (m : NoteOccurrencesMap) :
    mapGet k (collect cs m) =
      match mapGet k m with
      | some e => some { e with Occurrences := e.Occurrences ++ occurrencesOf k cs }
      | none =>
        match firstOf k cs with
        | none => none
        | some c => some { Note := some c.note, Occurrences := occurrencesOf k cs } := by
  induction cs generalizing m with
  | nil =>
    cases h : mapGet k m <;> simp [collect, occurrencesOf, firstOf, h]
  | cons c rest ih =>
    have hstep : collect (c :: rest) m = collect rest (addEntry c m) := rfl
    rw [hstep, ih]
    by_cases hk : c.noteID = k
    · subst hk
      rw [mapGet_addEntry_self]
      cases h : mapGet c.noteID m with
      | none => simp [occurrencesOf, firstOf]
      | some e => simp [occurrencesOf]
    · rw [mapGet_addEntry_ne c (Ne.symm hk)]
      cases h : mapGet k m with
      | none => simp [occurrencesOf, firstOf, hk]
      | some e => simp [occurrencesOf, hk]

theorem keys_mapSet (k : String) (e : NoteOccurrences) (m : NoteOccurrencesMap) :
    (mapSet k e m).map Prod.fst =
      if k ∈ m.map Prod.fst then m.map Prod.fst else m.map Prod.fst ++ [k] := by
  induction m with
  | nil => simp [mapSet]
  | cons p rest ih =>
    obtain ⟨k', e'⟩ := p
    by_cases h : k' = k
    · subst h
      simp [mapSet]
    · have h' : ¬ k = k' := fun h'' => h h''.symm
      by_cases hm : k ∈ rest.map Prod.fst
      · simp only [mapSet, h, if_false, List.map_cons, ih, hm, if_true, List.mem_cons, or_true]
      · simp only [mapSet, h, if_false, List.map_cons, ih, hm, List.mem_cons, h', or_self,
          List.cons_append]

theorem nodup_keys_mapSet (k : String) (e : NoteOccurrences) (m : NoteOccurrencesMap)
    (h : (m.map Prod.fst).Nodup) : ((mapSet k e m).map Prod.fst).Nodup := by
  rw [keys_mapSet]
  split
  · exact h
  · rename_i hk
    exact List.Nodup.append h (List.nodup_singleton k) (by simpa using hk)

theorem nodup_keys_addEntry (c : Contribution) (m : NoteOccurrencesMap)
    (h : (m.map Prod.fst).Nodup) : ((addEntry c m).map Prod.fst).Nodup := by
  unfold addEntry
  apply nodup_keys_mapSet
  split
  · exact nodup_keys_mapSet _ _ _ h
  · exact h

theorem nodup_keys_collect (cs : List Contribution) (m : NoteOccurrencesMap)
    (h : (m.map Prod.fst).Nodup) : ((collect cs m).map Prod.fst).Nodup := by
  induction cs generalizing m with
  | nil => exact h
  | cons c rest ih => exact ih _ (nodup_keys_addEntry c m h)

theorem mapGet_of_mem {k : String} {e : NoteOccurrences} {m : NoteOccurrencesMap}
    (hn : (m.map Prod.fst).Nodup) (h : (k, e) ∈ m) : mapGet k m = some e := by
  induction m with
  | nil => cases h
  | cons p rest ih =>
    obtain ⟨k', e'⟩ := p
    simp only [List.map_cons, List.nodup_cons] at hn
    rcases List.mem_cons.mp h with heq | hmem
    · cases heq
      simp [mapGet]
    · have hne : k' ≠ k := by
        intro hk
        subst hk
        exact hn.1 (List.mem_map.mpr ⟨(k', e), hmem, rfl⟩)
      simp [mapGet, hne, ih hn.2 hmem]

theorem mem_of_mapGet {k : String} {e : NoteOccurrences} {m : NoteOccurrencesMap}
    (h : mapGet k m = some e) : (k, e) ∈ m := by
  induction m with
  | nil => simp [mapGet] at h
  | cons p rest ih =>
    obtain ⟨k', e'⟩ := p
    by_cases hk : k' = k
    · subst hk
      simp [mapGet] at h
      simp [h]
    · simp only [mapGet, hk, if_false] at h
      exact List.mem_cons_of_mem _ (ih h)

/-! ## The builders in closed form -/

theorem referenceUrls_eq (xs : List Json) :
    referenceUrls xs =
      if xs.all isString then
        Go.ret (xs.map (fun r => ({ Url := stringOf r, Label := "Url" } : RelatedUrl)))
      else Go.panic := by
  induction xs with
  | nil => rfl
  | cons x rest ih =>
    cases x <;> simp [referenceUrls, assertString, Data, isString, stringOf, ih]
    split <;> simp

theorem convertNote_eq (u : Utils) (s : Source) (v : Json) :
    convertNote u s v =
      if isString (Data (Search (some v) ["VulnerabilityID"])) then
        if isNil (Data (Search (some v) ["CVSS", "nvd"])) then Go.ret none
        else if noteFieldsOK v then Go.ret (some (noteOf u s v))
        else Go.panic
      else Go.panic := by
  unfold convertNote noteOf noteFieldsOK
  simp only [Go.bind_eq, Go.pure_eq, referenceUrls_eq]
  generalize Data (Search (some v) ["VulnerabilityID"]) = vid
  generalize Data (Search (some v) ["PrimaryURL"]) = purl
  generalize Data (Search (some v) ["Severity"]) = sev
  generalize Data (Search (Search (some v) ["CVSS", "nvd"]) ["V2Vector"]) = v2
  generalize Data (Search (Search (some v) ["CVSS", "nvd"]) ["V3Vector"]) = v3
  generalize (Children (Search (some v) ["References"])) = refs
  cases vid <;> simp only [assertString, isString, Go.bind_panic, Go.bind_ret, if_true, if_false, Bool.false_eq_true]
  split
  · rfl
  cases purl <;> simp only [assertString, isString, Go.bind_panic, Go.bind_ret, if_true, if_false, Bool.false_eq_true, Bool.false_and, Bool.true_and]
  cases sev <;> simp only [assertString, isString, Go.bind_panic, Go.bind_ret, if_true, if_false, Bool.false_eq_true, Bool.false_and, Bool.true_and]
  cases v2 <;> cases v3 <;> simp [assertString, isString, isNil, vectorOK, stringOf] <;> split <;> simp

theorem makeCPE_eq (v : Json) :
    makeCPE v = if packageFieldsOK v then Go.ret (cpeOf v) else Go.panic := by
  unfold makeCPE packageFieldsOK cpeOf
  simp only [Go.bind_eq, Go.pure_eq]
  generalize Data (Search (some v) ["SeveritySource"]) = src
  generalize Data (Search (some v) ["PkgName"]) = pkgName
  generalize Data (Search (some v) ["InstalledVersion"]) = pkgVersion
  cases src <;> simp only [assertString, isString, Go.bind_panic, Go.bind_ret, Bool.false_and,
    Bool.true_and, Bool.false_eq_true, if_false]
  cases pkgName <;> simp only [assertString, isString, Go.bind_panic, Go.bind_ret,
    Bool.false_and, Bool.true_and, Bool.false_eq_true, if_false]
  cases pkgVersion <;> simp [assertString, isString, stringOf]

theorem getBasePackageIssue_eq (v : Json) (packageType : String) :
    getBasePackageIssue v packageType =
      if packageFieldsOK v then Go.ret (packageIssueOf v packageType) else Go.panic := by
  unfold getBasePackageIssue packageIssueOf
  simp only [Go.bind_eq, Go.pure_eq, makeCPE_eq]
  by_cases h : packageFieldsOK v = true
  · simp only [h, if_true, Go.bind_ret]
    unfold packageFieldsOK at h
    simp only [Bool.and_eq_true] at h
    obtain ⟨⟨-, h₂⟩, h₃⟩ := h
    generalize cpeOf v = cpe
    generalize Data (Search (some v) ["PkgName"]) = pkgName at h₂ ⊢
    generalize Data (Search (some v) ["InstalledVersion"]) = pkgVersion at h₃ ⊢
    cases pkgName <;> simp [isString] at h₂
    cases pkgVersion <;> simp [isString] at h₃
    simp [assertString, stringOf]
  · simp [h]

theorem getPackageType_eq (u : Utils) (r : Json) :
    getPackageType u r =
      if groupFieldsOK r then Go.ret (packageTypeOf u r) else Go.panic := by
  unfold getPackageType groupFieldsOK packageTypeOf
  simp only [Go.bind_eq, Go.pure_eq]
  generalize Data (Search (some r) ["Class"]) = cls
  generalize Data (Search (some r) ["Type"]) = ty
  cases cls <;> simp only [assertString, isString, Go.bind_panic, Go.bind_ret, Bool.false_and,
    Bool.true_and, Bool.false_eq_true, if_false]
  rename_i c
  by_cases hc : c = "lang-pkgs"
  · subst hc
    cases ty <;> simp [assertString, isString, stringOf]
  · simp [stringOf, hc]

theorem convertOccurrence_eq (u : Utils) (s : Source) (v : Json) (noteID : String)
    (packageType : String) :
    convertOccurrence u s v noteID packageType =
      if isString (Data (Search (some v) ["VulnerabilityID"])) then
        if isNil (Data (Search (some v) ["CVSS", "nvd"])) then Go.ret none
        else if noteFieldsOK v && packageFieldsOK v then
          Go.ret (some (occurrenceOf u s v noteID packageType))
        else Go.panic
      else Go.panic := by
  unfold convertOccurrence occurrenceOf noteFieldsOK
  simp only [Go.bind_eq, Go.pure_eq, referenceUrls_eq, getBasePackageIssue_eq]
  generalize packageIssueOf v packageType = issue
  generalize packageFieldsOK v = pkgOK
  generalize Data (Search (some v) ["VulnerabilityID"]) = vid
  generalize Data (Search (some v) ["PrimaryURL"]) = purl
  generalize Data (Search (some v) ["Severity"]) = sev
  generalize Data (Search (Search (some v) ["CVSS", "nvd"]) ["V2Vector"]) = v2
  generalize Data (Search (Search (some v) ["CVSS", "nvd"]) ["V3Vector"]) = v3
  generalize (Children (Search (some v) ["References"])) = refs
  cases vid <;> simp only [assertString, isString, Go.bind_panic, Go.bind_ret, if_true, if_false,
    Bool.false_eq_true]
  split
  · rfl
  cases purl <;> simp only [assertString, isString, Go.bind_panic, Go.bind_ret, if_true,
    if_false, Bool.false_eq_true, Bool.false_and, Bool.true_and]
  cases sev <;> simp only [assertString, isString, Go.bind_panic, Go.bind_ret, if_true,
    if_false, Bool.false_eq_true, Bool.false_and, Bool.true_and]
  cases pkgOK <;> simp only [Go.bind_panic, Go.bind_ret, if_true, if_false,
    Bool.false_eq_true, Bool.and_false, Bool.and_true]
  cases v2 <;> cases v3 <;> simp [assertString, isString, isNil, vectorOK, stringOf] <;>
    split <;> simp

theorem vector_string {x : Json} (hok : vectorOK x = true) (hx : isNil x = false) :
    Json.str (stringOf x) = x := by
  cases x <;> simp_all [vectorOK, isNil, isString, stringOf]

theorem convertNote_some {u : Utils} {s : Source} {v : Json} {n : Note}
    (h : convertNote u s v = Go.ret (some n)) :
    isString (Data (Search (some v) ["VulnerabilityID"])) = true ∧
    isNil (Data (Search (some v) ["CVSS", "nvd"])) = false ∧
    noteFieldsOK v = true ∧ n = noteOf u s v := by
  rw [convertNote_eq] at h
  cases h₁ : isString (Data (Search (some v) ["VulnerabilityID"])) <;>
    cases h₂ : isNil (Data (Search (some v) ["CVSS", "nvd"])) <;>
    cases h₃ : noteFieldsOK v <;> simp_all

theorem convertOccurrence_some {u : Utils} {s : Source} {v : Json} {noteID packageType : String}
    {o : Occurrence} (h : convertOccurrence u s v noteID packageType = Go.ret (some o)) :
    isString (Data (Search (some v) ["VulnerabilityID"])) = true ∧
    isNil (Data (Search (some v) ["CVSS", "nvd"])) = false ∧
    noteFieldsOK v = true ∧ packageFieldsOK v = true ∧
    o = occurrenceOf u s v noteID packageType := by
  rw [convertOccurrence_eq] at h
  cases h₁ : isString (Data (Search (some v) ["VulnerabilityID"])) <;>
    cases h₂ : isNil (Data (Search (some v) ["CVSS", "nvd"])) <;>
    cases h₃ : noteFieldsOK v <;>
    cases h₄ : packageFieldsOK v <;> simp_all

/-! ## The loop in closed form -/

theorem contribution_eq (u : Utils) (s : Source) (r v : Json) :
    contribution u s r v =
      if findingOK u s r v then
        Go.ret (if included u s v then some (contributionOf u s r v) else none)
      else Go.panic := by
  unfold contribution findingOK included contributionOf
  simp only [Go.bind_eq, Go.pure_eq, convertNote_eq, convertOccurrence_eq, getPackageType_eq]
  cases h₁ : isString (Data (Search (some v) ["VulnerabilityID"])) <;>
    cases h₂ : isNil (Data (Search (some v) ["CVSS", "nvd"])) <;>
    cases h₃ : noteFieldsOK v <;>
    cases h₄ : (noteOf u s v).Vulnerability.CvssScore.isZero <;>
    cases h₅ : groupFieldsOK r <;>
    cases h₆ : packageFieldsOK v <;> simp [h₄]

theorem contributions_eq (u : Utils) (s : Source) (fs : List (Json × Json)) :
    contributions u s fs =
      if fs.all (fun rv => findingOK u s rv.1 rv.2) then
        Go.ret ((fs.filter (fun rv => included u s rv.2)).map
          (fun rv => contributionOf u s rv.1 rv.2))
      else Go.panic := by
  induction fs with
  | nil => rfl
  | cons rv rest ih =>
    rw [contributions_cons, ih, contribution_eq]
    cases h₁ : findingOK u s rv.1 rv.2 <;>
      cases h₂ : List.all rest (fun rv => findingOK u s rv.1 rv.2) <;>
      cases h₃ : included u s rv.2 <;> simp [h₁, h₂, h₃]

/-- `Convert` on a source with a data payload, in closed form: it panics when
the loop body does not run to its end on some finding, and otherwise returns the
map collected from the included findings, and no error. -/
theorem Convert_closed (u : Utils) (s : Source) (d : Json) (hd : s.Data = some d) :
    Convert u (some s) =
      if (findingsOf d).all (fun rv => findingOK u s rv.1 rv.2) then
        Go.ret (some (collect (((findingsOf d).filter (fun rv => included u s rv.2)).map
          (fun rv => contributionOf u s rv.1 rv.2)) []), none)
      else Go.panic := by
  rw [Convert_eq u s d hd, contributions_eq]
  unfold findingsOf
  split <;> rfl

/-! ## The entries of the result -/

theorem findingOK_included {u : Utils} {s : Source} {r v : Json}
    (hok : findingOK u s r v = true) (hinc : included u s v = true) :
    convertNote u s v = Go.ret (some (noteOf u s v)) ∧
    getPackageType u r = Go.ret (packageTypeOf u r) ∧
    ∀ noteID packageType, convertOccurrence u s v noteID packageType =
      Go.ret (some (occurrenceOf u s v noteID packageType)) := by
  rw [convertNote_eq, getPackageType_eq]
  simp only [convertOccurrence_eq]
  unfold findingOK at hok
  unfold included at hinc
  cases h₁ : isString (Data (Search (some v) ["VulnerabilityID"])) <;>
    cases h₂ : isNil (Data (Search (some v) ["CVSS", "nvd"])) <;>
    cases h₃ : noteFieldsOK v <;>
    cases h₄ : (noteOf u s v).Vulnerability.CvssScore.isZero <;>
    cases h₅ : groupFieldsOK r <;>
    cases h₆ : packageFieldsOK v <;> simp [h₁, h₂, h₃, h₄, h₅, h₆] at hok hinc ⊢

theorem includedAs_eq {u : Utils} {s : Source} {r v : Json} (k : String)
    (hok : findingOK u s r v = true) :
    includedAs u s k v =
      (included u s v && decide ((contributionOf u s r v).noteID = k)) := by
  unfold includedAs included contributionOf
  rw [convertNote_eq]
  unfold findingOK at hok
  cases h₁ : isString (Data (Search (some v) ["VulnerabilityID"])) <;>
    cases h₂ : isNil (Data (Search (some v) ["CVSS", "nvd"])) <;>
    cases h₃ : noteFieldsOK v <;> simp [h₁, h₂, h₃] at hok ⊢

theorem firstOf_contributions (u : Utils) (s : Source) (k : String) (fs : List (Json × Json))
    (hall : ∀ rv ∈ fs, findingOK u s rv.1 rv.2 = true) :
    firstOf k ((fs.filter (fun rv => included u s rv.2)).map
        (fun rv => contributionOf u s rv.1 rv.2)) =
      (fs.find? (fun rv => includedAs u s k rv.2)).map
        (fun rv => contributionOf u s rv.1 rv.2) := by
  induction fs with
  | nil => rfl
  | cons rv rest ih =>
    have hrv := includedAs_eq k (hall rv (List.mem_cons_self _ _))
    have ih' := ih (fun x hx => hall x (List.mem_cons_of_mem _ hx))
    unfold firstOf at ih' ⊢
    cases hinc : included u s rv.2 with
    | false =>
      simp only [hinc, Bool.false_and] at hrv
      simpa [List.filter_cons, List.find?_cons, hinc, hrv] using ih'
    | true =>
      simp only [hinc, Bool.true_and] at hrv
      by_cases hk : (contributionOf u s rv.1 rv.2).noteID = k
      · simp [List.filter_cons, List.find?_cons, hinc, hrv, hk]
      · simpa [List.filter_cons, List.find?_cons, hinc, hrv, hk] using ih'

theorem occurrencesOf_contributions (u : Utils) (s : Source) (k : String)
    (fs : List (Json × Json)) (hall : ∀ rv ∈ fs, findingOK u s rv.1 rv.2 = true) :
    occurrencesOf k ((fs.filter (fun rv => included u s rv.2)).map
        (fun rv => contributionOf u s rv.1 rv.2)) =
      (fs.filter (fun rv => includedAs u s k rv.2)).map
        (fun rv => some (occurrenceOf u s rv.2 k (packageTypeOf u rv.1))) := by
  induction fs with
  | nil => rfl
  | cons rv rest ih =>
    have hrv := includedAs_eq k (hall rv (List.mem_cons_self _ _))
    have ih' := ih (fun x hx => hall x (List.mem_cons_of_mem _ hx))
    unfold occurrencesOf at ih' ⊢
    cases hinc : included u s rv.2 with
    | false =>
      simp only [hinc, Bool.false_and] at hrv
      simpa [List.filter_cons, hinc, hrv] using ih'
    | true =>
      simp only [hinc, Bool.true_and] at hrv
      by_cases hk : (contributionOf u s rv.1 rv.2).noteID = k
      · have hk' : u.GetPrefixNoteName (noteOf u s rv.2).ShortDescription = k := hk
        simp only [List.filter_cons, hinc, if_true, List.map_cons, hk, decide_True, hrv]
        simp only [contributionOf, hk', List.cons.injEq, true_and]
        simpa [hk'] using ih'
      · simpa [List.filter_cons, hinc, hrv, hk] using ih'

/-- When `Convert` returns a map, the loop body runs to its end on every finding,
and the entry of a note ID `k` is made of the note of the first finding that
passes the gate under `k` and of the occurrences of all such findings, in document
order; there is no entry when there is no such finding. -/
theorem Convert_entries {u : Utils} {s : Source} {d : Json} {m : NoteOccurrencesMap}
    (hd : s.Data = some d) (h : Convert u (some s) = Go.ret (some m, none)) :
    (∀ rv ∈ findingsOf d, findingOK u s rv.1 rv.2 = true) ∧
    (m.map Prod.fst).Nodup ∧
    ∀ k, mapGet k m =
      ((findingsOf d).find? (fun rv => includedAs u s k rv.2)).map (fun rv =>
        { Note := some (noteOf u s rv.2)
          Occurrences := ((findingsOf d).filter (fun rv => includedAs u s k rv.2)).map
            (fun rv => some (occurrenceOf u s rv.2 k (packageTypeOf u rv.1))) }) := by
  rw [Convert_closed u s d hd] at h
  by_cases hall : (findingsOf d).all (fun rv => findingOK u s rv.1 rv.2) = true
  · rw [if_pos hall] at h
    have hall' : ∀ rv ∈ findingsOf d, findingOK u s rv.1 rv.2 = true := by
      simpa [List.all_eq_true] using hall
    have hm : m = collect (((findingsOf d).filter (fun rv => included u s rv.2)).map
        (fun rv => contributionOf u s rv.1 rv.2)) [] := by
      injection h with h
      injection h with h₁ _
      injection h₁ with h₁
      exact h₁.symm
    refine ⟨hall', ?_, ?_⟩
    · rw [hm]
      exact nodup_keys_collect _ _ List.nodup_nil
    · intro k
      rw [hm, mapGet_collect, firstOf_contributions u s k _ hall',
        occurrencesOf_contributions u s k _ hall']
      cases (findingsOf d).find? (fun rv => includedAs u s k rv.2) with
      | none => rfl
      | some rv => rfl
  · rw [if_neg hall] at h
    cases h

theorem includedAs_true {u : Utils} {s : Source} {k : String} {v : Json}
    (h : includedAs u s k v = true) :
    convertNote u s v = Go.ret (some (noteOf u s v)) ∧
    (noteOf u s v).Vulnerability.CvssScore.isZero = false ∧
    u.GetPrefixNoteName (noteOf u s v).ShortDescription = k := by
  unfold includedAs at h
  cases hn : convertNote u s v with
  | panic => simp [hn] at h
  | ret n =>
    cases n with
    | none => simp [hn] at h
    | some n =>
      obtain ⟨-, -, -, rfl⟩ := convertNote_some hn
      simpa [hn] using h

/-- A finding that passes the gate, in a run of `Convert` that returns: the exact
values that `getPackageType` and `convertOccurrence` return for it. -/
theorem included_occurrence {u : Utils} {s : Source} {k : String} {r v : Json}
    (hok : findingOK u s r v = true) (h : includedAs u s k v = true) :
    getPackageType u r = Go.ret (packageTypeOf u r) ∧
    convertOccurrence u s v k (packageTypeOf u r) =
      Go.ret (some (occurrenceOf u s v k (packageTypeOf u r))) := by
  have hinc : included u s v = true := by
    rw [includedAs_eq k hok] at h
    simp only [Bool.and_eq_true] at h
    exact h.1
  obtain ⟨-, h₂, h₃⟩ := findingOK_included hok hinc
  exact ⟨h₂, h₃ _ _⟩

/-! ## Fields of the values the builders return -/

theorem isString_eq {x : Json} (h : isString x = true) : x = Json.str (stringOf x) := by
  cases x <;> simp_all [isString, stringOf]

theorem noteOf_RelatedUrl (u : Utils) (s : Source) (v : Json) :
    (noteOf u s v).RelatedUrl =
      { Url := s.URI, Label := "Registry" } ::
      { Url := stringOf (Data (Search (some v) ["PrimaryURL"])), Label := "PrimaryURL" } ::
      (Children (Search (some v) ["References"])).map
        (fun r => { Url := stringOf r, Label := "Url" }) := by
  simp only [noteOf]
  split <;> split <;> rfl

theorem occurrenceOf_RelatedUrls (u : Utils) (s : Source) (v : Json)
    (noteID packageType : String) :
    (occurrenceOf u s v noteID packageType).Vulnerability.RelatedUrls =
      (noteOf u s v).RelatedUrl := by
  rw [noteOf_RelatedUrl]
  simp only [occurrenceOf]
  split <;> split <;> rfl

theorem occurrenceOf_PackageIssue (u : Utils) (s : Source) (v : Json)
    (noteID packageType : String) :
    (occurrenceOf u s v noteID packageType).Vulnerability.PackageIssue =
      [packageIssueOf v packageType] := by
  simp only [occurrenceOf]
  split <;> split <;> rfl

theorem occurrenceOf_names (u : Utils) (s : Source) (v : Json)
    (noteID packageType : String) :
    (occurrenceOf u s v noteID packageType).NoteName =
      "projects/" ++ s.Project ++ "/notes/" ++ noteID ∧
    (occurrenceOf u s v noteID packageType).ResourceUri = "https://" ++ s.URI :=
  ⟨rfl, rfl⟩

theorem noteOf_Severity (u : Utils) (s : Source) (v : Json) :
    (noteOf u s v).Vulnerability.Severity =
      u.ToGrafeasSeverity (stringOf (Data (Search (some v) ["Severity"]))) := by
  simp only [noteOf]
  split <;> split <;> rfl

theorem occurrenceOf_Severity (u : Utils) (s : Source) (v : Json)
    (noteID packageType : String) :
    (occurrenceOf u s v noteID packageType).Vulnerability.Severity =
      u.ToGrafeasSeverity (stringOf (Data (Search (some v) ["Severity"]))) ∧
    (occurrenceOf u s v noteID packageType).Vulnerability.EffectiveSeverity =
      u.ToGrafeasSeverity (stringOf (Data (Search (some v) ["Severity"]))) := by
  simp only [occurrenceOf]
  split <;> split <;> exact ⟨rfl, rfl⟩

/-- On a finding with a vector the two builders set version, score and description
alike. -/
theorem occurrenceOf_cvss (u : Utils) (s : Source) (v : Json) (noteID packageType : String)
    (hv : hasVector v = true) :
    (occurrenceOf u s v noteID packageType).Vulnerability.CvssVersion =
      (noteOf u s v).Vulnerability.CvssVersion ∧
    (occurrenceOf u s v noteID packageType).Vulnerability.CvssScore =
      (noteOf u s v).Vulnerability.CvssScore ∧
    (occurrenceOf u s v noteID packageType).Vulnerability.LongDescription =
      (noteOf u s v).LongDescription := by
  simp only [hasVector, Bool.or_eq_true, Bool.not_eq_true'] at hv
  simp only [occurrenceOf, noteOf]
  cases h₂ : isNil (Data (Search (Search (some v) ["CVSS", "nvd"]) ["V2Vector"])) <;>
    cases h₃ : isNil (Data (Search (Search (some v) ["CVSS", "nvd"]) ["V3Vector"])) <;>
    simp [h₂, h₃] at hv ⊢

/-! ## One step of the loop on an existing entry, and counting -/

theorem mapGet_addEntry_of_some {k : String} {e : NoteOccurrences} (c : Contribution)
    {m : NoteOccurrencesMap} (h : mapGet k m = some e) :
    mapGet k (addEntry c m) =
      some (if c.noteID = k then { e with Occurrences := e.Occurrences ++ [c.occ] } else e) := by
  by_cases hk : c.noteID = k
  · subst hk
    rw [mapGet_addEntry_self, h, if_pos rfl]
  · rw [mapGet_addEntry_ne c (Ne.symm hk), h, if_neg hk]

/-- The loop body either leaves the map as it is or adds one contribution. -/
theorem convertFinding_ret {u : Utils} {s : Source} {r v : Json}
    {list list' : NoteOccurrencesMap} (h : convertFinding u s r v list = Go.ret list') :
    list' = list ∨ ∃ c, list' = addEntry c list := by
  rw [convertFinding_eq, Go.bind_eq_ret] at h
  obtain ⟨c, -, hc⟩ := h
  cases c with
  | none =>
    injection hc with hc
    exact Or.inl hc.symm
  | some c =>
    injection hc with hc
    exact Or.inr ⟨c, hc.symm⟩

theorem filter_of_find? {α : Type} {p : α → Bool} {l : List α} {a : α}
    (h : l.find? p = some a) : ∃ rest, l.filter p = a :: rest := by
  induction l with
  | nil => simp at h
  | cons x xs ih =>
    cases hx : p x with
    | true =>
      simp only [List.find?_cons, hx, Option.some.injEq] at h
      subst h
      exact ⟨xs.filter p, by simp [List.filter_cons, hx]⟩
    | false =>
      simp only [List.find?_cons, hx] at h
      obtain ⟨rest, hrest⟩ := ih h
      exact ⟨rest, by simp [List.filter_cons, hx, hrest]⟩

theorem totalOccurrences_mapSet (k : String) (e : NoteOccurrences) (m : NoteOccurrencesMap) :
    totalOccurrences (mapSet k e m) +
        ((mapGet k m).map (fun e₀ => e₀.Occurrences.length)).getD 0 =
      totalOccurrences m + e.Occurrences.length := by
  induction m with
  | nil => simp [mapSet, mapGet, totalOccurrences]
  | cons p rest ih =>
    obtain ⟨k', e'⟩ := p
    by_cases h : k' = k
    · simp [mapSet, mapGet, totalOccurrences, h]
      omega
    · simp only [mapSet, mapGet, h, if_false, totalOccurrences, List.map_cons,
        List.sum_cons] at ih ⊢
      omega

theorem totalOccurrences_addEntry (c : Contribution) (m : NoteOccurrencesMap) :
    totalOccurrences (addEntry c m) = totalOccurrences m + 1 := by
  unfold addEntry
  cases h : mapGet c.noteID m with
  | none =>
    have h₁ := totalOccurrences_mapSet c.noteID { Note := some c.note, Occurrences := [] } m
    have h₂ := totalOccurrences_mapSet c.noteID
      { Note := some c.note, Occurrences := ([] : List (Option Occurrence)) ++ [c.occ] }
      (mapSet c.noteID { Note := some c.note, Occurrences := [] } m)
    simp only [h, mapGet_mapSet_self, Option.map_none', Option.getD_none, Option.map_some',
      Option.getD_some, List.length_nil, List.nil_append, List.length_singleton] at h₁ h₂
    simp only [Option.isNone_none, if_true, mapGet_mapSet_self, Option.getD_some,
      List.nil_append]
    omega
  | some e =>
    have h₁ := totalOccurrences_mapSet c.noteID
      { e with Occurrences := e.Occurrences ++ [c.occ] } m
    simp only [h, Option.map_some', Option.getD_some, List.length_append,
      List.length_singleton] at h₁
    simp only [Option.isNone_some, Bool.false_eq_true, if_false, h, Option.getD_some]
    omega

theorem totalOccurrences_collect (cs : List Contribution) (m : NoteOccurrencesMap) :
    totalOccurrences (collect cs m) = totalOccurrences m + cs.length := by
  induction cs generalizing m with
  | nil => rfl
  | cons c rest ih =>
    have hstep : collect (c :: rest) m = collect rest (addEntry c m) := rfl
    rw [hstep, ih, totalOccurrences_addEntry, List.length_cons]
    omega

theorem passesGate_eq {u : Utils} {s : Source} {r v : Json}
    (hok : findingOK u s r v = true) : passesGate u s v = included u s v := by
  unfold passesGate included
  rw [convertNote_eq]
  unfold findingOK at hok
  cases h₁ : isString (Data (Search (some v) ["VulnerabilityID"])) <;>
    cases h₂ : isNil (Data (Search (some v) ["CVSS", "nvd"])) <;>
    cases h₃ : noteFieldsOK v <;> simp [h₁, h₂, h₃] at hok ⊢

/-- When `Convert` returns a map, the map is the one collected from the findings
that pass the gate. -/
theorem Convert_collect {u : Utils} {s : Source} {d : Json} {m : NoteOccurrencesMap}
    (hd : s.Data = some d) (h : Convert u (some s) = Go.ret (some m, none)) :
    m = collect (((findingsOf d).filter (fun rv => included u s rv.2)).map
        (fun rv => contributionOf u s rv.1 rv.2)) [] := by
  rw [Convert_closed u s d hd] at h
  by_cases hall : (findingsOf d).all (fun rv => findingOK u s rv.1 rv.2) = true
  · rw [if_pos hall] at h
    injection h with h
    injection h with h₁ _
    injection h₁ with h₁
    exact h₁.symm
  · rw [if_neg hall] at h
    cases h

/-- The score of a note is `0` unless the finding has a vector; with a vector the
version and the description are those of the version 3 vector when there is one,
and of the version 2 vector otherwise. -/
theorem noteOf_cvss (u : Utils) (s : Source) (v : Json)
    (hz : (noteOf u s v).Vulnerability.CvssScore.isZero = false) :
    (isNil (Data (Search (Search (some v) ["CVSS", "nvd"]) ["V3Vector"])) = false ∧
      (noteOf u s v).Vulnerability.CvssVersion = CVSSVersion.CVSS_VERSION_3 ∧
      (noteOf u s v).LongDescription =
        stringOf (Data (Search (Search (some v) ["CVSS", "nvd"]) ["V3Vector"]))) ∨
    (isNil (Data (Search (Search (some v) ["CVSS", "nvd"]) ["V3Vector"])) = true ∧
      isNil (Data (Search (Search (some v) ["CVSS", "nvd"]) ["V2Vector"])) = false ∧
      (noteOf u s v).Vulnerability.CvssVersion = CVSSVersion.CVSS_VERSION_2 ∧
      (noteOf u s v).LongDescription =
        stringOf (Data (Search (Search (some v) ["CVSS", "nvd"]) ["V2Vector"]))) := by
  simp only [noteOf] at hz ⊢
  cases h₂ : isNil (Data (Search (Search (some v) ["CVSS", "nvd"]) ["V2Vector"])) <;>
    cases h₃ : isNil (Data (Search (Search (some v) ["CVSS", "nvd"]) ["V3Vector"])) <;>
    simp [h₂, h₃, Float32.isZero, Float32.zero] at hz ⊢


/-! ## The claims -/

/-- C1 (structural errors of `Convert`). A nil source and a source without data
payload give `ErrInvalidSource` and the nil map. A source whose data has no
`Results` (an empty object, or `null`) does not give the error the code prepares
for it: the loop runs over no group and `Convert` returns an empty map and no
error, because `Exists()` without a path holds for every container. -/
theorem Convert_structural_errors (u : Utils) (uri project : String) :
    Convert u none = Go.ret (none, some Error.ErrInvalidSource) ∧
    Convert u (some { URI := uri, Project := project, Data := none }) =
      Go.ret (none, some Error.ErrInvalidSource) ∧
    Convert u (some { URI := uri, Project := project, Data := some (Json.obj []) }) =
      Go.ret (some [], none) ∧
    Convert u (some { URI := uri, Project := project, Data := some Json.null }) =
      Go.ret (some [], none) :=
  ⟨rfl, rfl, rfl, rfl⟩

/-- C2 (CVSS precedence). For a finding whose `CVSS.nvd` carries both a `V2Vector`
and a `V3Vector`, the note that `convertNote` builds and the occurrence that
`convertOccurrence` builds have `CvssVersion` 3, `CvssScore` the coerced `V3Score`
and `LongDescription` the `V3Vector`. -/
theorem cvss_precedence (u : Utils) (s : Source) (v : Json) (noteID packageType : String)
    (h2 : isNil (Data (Search (Search (some v) ["CVSS", "nvd"]) ["V2Vector"])) = false)
    (h3 : isNil (Data (Search (Search (some v) ["CVSS", "nvd"]) ["V3Vector"])) = false) :
    (∀ n, convertNote u s v = Go.ret (some n) →
      n.Vulnerability.CvssVersion = CVSSVersion.CVSS_VERSION_3 ∧
      n.Vulnerability.CvssScore =
        u.ToFloat32 (Data (Search (Search (some v) ["CVSS", "nvd"]) ["V3Score"])) ∧
      Json.str n.LongDescription =
        Data (Search (Search (some v) ["CVSS", "nvd"]) ["V3Vector"])) ∧
    (∀ o, convertOccurrence u s v noteID packageType = Go.ret (some o) →
      o.Vulnerability.CvssVersion = CVSSVersion.CVSS_VERSION_3 ∧
      o.Vulnerability.CvssScore =
        u.ToFloat32 (Data (Search (Search (some v) ["CVSS", "nvd"]) ["V3Score"])) ∧
      Json.str o.Vulnerability.LongDescription =
        Data (Search (Search (some v) ["CVSS", "nvd"]) ["V3Vector"])) := by
  constructor
  · intro n hn
    obtain ⟨-, -, hok, rfl⟩ := convertNote_some hn
    have hv3 : vectorOK (Data (Search (Search (some v) ["CVSS", "nvd"]) ["V3Vector"])) = true := by
      simp only [noteFieldsOK, Bool.and_eq_true] at hok
      exact hok.1.2
    simp [noteOf, h2, h3, vector_string hv3 h3]
  · intro o ho
    obtain ⟨-, -, hok, -, rfl⟩ := convertOccurrence_some ho
    have hv3 : vectorOK (Data (Search (Search (some v) ["CVSS", "nvd"]) ["V3Vector"])) = true := by
      simp only [noteFieldsOK, Bool.and_eq_true] at hok
      exact hok.1.2
    simp [occurrenceOf, h2, h3, vector_string hv3 h3]

/-- C2 on a finding with version 2 score 5.0 and version 3 score 7.5: both builders
return, and the note and the occurrence carry the version 3 data. -/
theorem cvss_precedence_witness :
    (∃ n, convertNote exampleUtils (exampleSource (exampleDocument []))
      (exampleFinding "CVE-2021-1234" nvdBoth) = Go.ret (some n)) ∧
    (∃ o, convertOccurrence exampleUtils (exampleSource (exampleDocument []))
      (exampleFinding "CVE-2021-1234" nvdBoth) "CVE-2021-1234" "npm" = Go.ret (some o)) ∧
    ((∀ n, convertNote exampleUtils (exampleSource (exampleDocument []))
        (exampleFinding "CVE-2021-1234" nvdBoth) = Go.ret (some n) →
      n.Vulnerability.CvssVersion = CVSSVersion.CVSS_VERSION_3 ∧
      n.Vulnerability.CvssScore = exampleUtils.ToFloat32 (Json.num f7_5) ∧
      Json.str n.LongDescription =
        Json.str "CVSS:3.1/AV:N/AC:L/PR:N/UI:N/S:U/C:H/I:N/A:N") ∧
    (∀ o, convertOccurrence exampleUtils (exampleSource (exampleDocument []))
        (exampleFinding "CVE-2021-1234" nvdBoth) "CVE-2021-1234" "npm" = Go.ret (some o) →
      o.Vulnerability.CvssVersion = CVSSVersion.CVSS_VERSION_3 ∧
      o.Vulnerability.CvssScore = exampleUtils.ToFloat32 (Json.num f7_5) ∧
      Json.str o.Vulnerability.LongDescription =
        Json.str "CVSS:3.1/AV:N/AC:L/PR:N/UI:N/S:U/C:H/I:N/A:N")) :=
  ⟨⟨_, rfl⟩, ⟨_, rfl⟩,
    cvss_precedence exampleUtils (exampleSource (exampleDocument []))
      (exampleFinding "CVE-2021-1234" nvdBoth) "CVE-2021-1234" "npm" (by decide) (by decide)⟩

/-! ### C3: the exclusion gate -/

theorem lookupKey_mapField (key k : String) (f : Json → Json) (kvs : List (String × Json)) :
    lookupKey k (kvs.map (fun kv => if kv.1 = key then (kv.1, f kv.2) else kv)) =
      if k = key then (lookupKey k kvs).map f else lookupKey k kvs := by
  induction kvs with
  | nil => simp [lookupKey]
  | cons kv rest ih =>
    obtain ⟨k', x⟩ := kv
    rw [List.map_cons]
    by_cases h₁ : k' = key
    · rw [if_pos h₁]
      by_cases h₂ : k' = k
      · have h₃ : k = key := h₂ ▸ h₁
        simp [lookupKey, h₂, h₃]
      · simp only [lookupKey, h₂, if_false, ih]
    · rw [if_neg h₁]
      by_cases h₂ : k' = k
      · have h₃ : ¬ k = key := h₂ ▸ h₁
        simp [lookupKey, h₂, h₃]
      · simp only [lookupKey, h₂, if_false, ih]

theorem Search_single (j : Json) (k : String) : Search (some j) [k] = searchSeg j k := rfl

theorem searchSeg_mapField (key k : String) (f : Json → Json) (j : Json) :
    searchSeg (mapField key f j) k =
      if k = key then (searchSeg j k).map f else searchSeg j k := by
  cases j <;> simp [mapField, searchSeg, lookupKey_mapField]

theorem Children_mapChildren (f : Json → Json) (g : Option Json) :
    Children (g.map (mapChildren f)) = (Children g).map f := by
  cases g with
  | none => rfl
  | some j => cases j <;> simp [Children, Data, mapChildren]

theorem Children_filterChildren (p : Json → Bool) (g : Option Json) :
    Children (g.map (filterChildren p)) = (Children g).filter p := by
  cases g with
  | none => rfl
  | some j =>
    cases j <;> simp [Children, Data, filterChildren]
    rename_i kvs
    induction kvs with
    | nil => rfl
    | cons kv rest ih =>
      by_cases h : p kv.2 = true <;> simp [List.filter_cons, h, ih]

theorem Children_groupWithoutUnscored (r : Json) :
    Children (Search (some (groupWithoutUnscored r)) ["Vulnerabilities"]) =
      (Children (Search (some r) ["Vulnerabilities"])).filter hasVector := by
  rw [Search_single, Search_single, groupWithoutUnscored, searchSeg_mapField, if_pos rfl,
    Children_filterChildren]

theorem Search_groupWithoutUnscored (r : Json) (k : String) (hk : k ≠ "Vulnerabilities") :
    Search (some (groupWithoutUnscored r)) [k] = Search (some r) [k] := by
  rw [Search_single, Search_single, groupWithoutUnscored, searchSeg_mapField, if_neg hk]

theorem groupFieldsOK_groupWithoutUnscored (r : Json) :
    groupFieldsOK (groupWithoutUnscored r) = groupFieldsOK r := by
  unfold groupFieldsOK
  rw [Search_groupWithoutUnscored r "Class" (by decide),
    Search_groupWithoutUnscored r "Type" (by decide)]

theorem packageTypeOf_groupWithoutUnscored (u : Utils) (r : Json) :
    packageTypeOf u (groupWithoutUnscored r) = packageTypeOf u r := by
  unfold packageTypeOf
  rw [Search_groupWithoutUnscored r "Class" (by decide),
    Search_groupWithoutUnscored r "Type" (by decide)]

theorem findings_withoutUnscored (rs : List Json) :
    findings (rs.map groupWithoutUnscored) =
      ((findings rs).filter (fun rv => hasVector rv.2)).map
        (fun rv => (groupWithoutUnscored rv.1, rv.2)) := by
  induction rs with
  | nil => rfl
  | cons r rest ih =>
    simp only [List.map_cons, findings, ih, Children_groupWithoutUnscored, List.filter_append,
      List.map_append, List.filter_map, List.map_map]
    rfl

theorem findingsOf_withoutUnscored (d : Json) :
    findingsOf (withoutUnscored d) =
      ((findingsOf d).filter (fun rv => hasVector rv.2)).map
        (fun rv => (groupWithoutUnscored rv.1, rv.2)) := by
  unfold findingsOf
  rw [Search_single, Search_single, withoutUnscored, searchSeg_mapField, if_pos rfl,
    Children_mapChildren, findings_withoutUnscored]

/-- A finding without a vector does not pass the gate of `Convert`: the score of
its note, if one is built, is `0`. -/
theorem included_hasVector {u : Utils} {s : Source} {v : Json}
    (h : included u s v = true) : hasVector v = true := by
  by_contra hv
  simp only [hasVector, Bool.or_eq_true, Bool.not_eq_true', not_or, Bool.not_eq_false] at hv
  simp [included, noteOf, hv.1, hv.2, Float32.isZero, Float32.zero] at h

theorem contributionOf_groupWithoutUnscored (u : Utils) (s : Source) (r v : Json) :
    contributionOf u s (groupWithoutUnscored r) v = contributionOf u s r v := by
  simp only [contributionOf, packageTypeOf_groupWithoutUnscored]

theorem findingOK_groupWithoutUnscored (u : Utils) (s : Source) (r v : Json) :
    findingOK u s (groupWithoutUnscored r) v = findingOK u s r v := by
  simp only [findingOK, groupFieldsOK_groupWithoutUnscored]

/-- The included findings of a list are those of the list without the findings
that have no vector. -/
theorem contributions_withoutUnscored (u : Utils) (s : Source) (fs : List (Json × Json)) :
    ((((fs.filter (fun rv => hasVector rv.2)).map
        (fun rv => (groupWithoutUnscored rv.1, rv.2))).filter
          (fun rv => included u s rv.2)).map (fun rv => contributionOf u s rv.1 rv.2)) =
      (fs.filter (fun rv => included u s rv.2)).map (fun rv => contributionOf u s rv.1 rv.2) := by
  induction fs with
  | nil => rfl
  | cons rv rest ih =>
    cases hinc : included u s rv.2 with
    | true =>
      have hv := included_hasVector hinc
      simp only [List.filter_cons, hv, if_true, List.map_cons, hinc, ih,
        contributionOf_groupWithoutUnscored]
    | false =>
      cases hv : hasVector rv.2 with
      | true =>
        simpa [List.filter_cons, hv, hinc] using ih
      | false =>
        simpa [List.filter_cons, hv, hinc] using ih

theorem all_withoutUnscored (u : Utils) (s : Source) (fs : List (Json × Json))
    (hrem : ∀ rv ∈ fs, hasVector rv.2 = false → findingOK u s rv.1 rv.2 = true) :
    (((fs.filter (fun rv => hasVector rv.2)).map
        (fun rv => (groupWithoutUnscored rv.1, rv.2))).all
          (fun rv => findingOK u s rv.1 rv.2)) =
      fs.all (fun rv => findingOK u s rv.1 rv.2) := by
  induction fs with
  | nil => rfl
  | cons rv rest ih =>
    have ih' := ih (fun x hx => hrem x (List.mem_cons_of_mem _ hx))
    cases hv : hasVector rv.2 with
    | true =>
      simp only [List.filter_cons, hv, if_true, List.map_cons, List.all_cons, ih',
        findingOK_groupWithoutUnscored]
    | false =>
      have hok := hrem rv (List.mem_cons_self _ _) hv
      simpa [List.filter_cons, hv, hok] using ih'

/-- When the loop body runs to its end on every finding without a vector, `Convert`
ends on the document without these findings as it ends on the document itself. -/
theorem withoutUnscored_runs_alike (u : Utils) (s : Source) (d : Json) (hd : s.Data = some d)
    (hrem : ∀ rv ∈ findingsOf d, hasVector rv.2 = false → findingOK u s rv.1 rv.2 = true) :
    Convert u (some { s with Data := s.Data.map withoutUnscored }) = Convert u (some s) := by
  rw [Convert_closed u s d hd]
  rw [Convert_closed u { s with Data := s.Data.map withoutUnscored } (withoutUnscored d)
    (by simp [hd]), findingsOf_withoutUnscored]
  have hs : ∀ r v, findingOK u { s with Data := s.Data.map withoutUnscored } r v =
      findingOK u s r v := fun _ _ => rfl
  have hi : ∀ v, included u { s with Data := s.Data.map withoutUnscored } v =
      included u s v := fun _ => rfl
  have hc : ∀ r v, contributionOf u { s with Data := s.Data.map withoutUnscored } r v =
      contributionOf u s r v := fun _ _ => rfl
  simp only [hs, hi, hc, contributions_withoutUnscored, all_withoutUnscored u s _ hrem]

/-- C3, as stated, fails. In a document with a scored finding and a finding that
has no vector (its `CVSS.nvd` holds only a score) and no `PrimaryURL`, the note
builder panics on the second finding, so `Convert` panics; on the document without
that finding `Convert` returns a map with one entry. -/
theorem exclusion_gate_counterexample :
    hasVector findingUnscoredWithoutPrimaryURL = false ∧
    (findingsOf (withoutUnscored documentUnscoredPanics)).length = 1 ∧
    Convert exampleUtils (some (exampleSource documentUnscoredPanics)) = Go.panic ∧
    ∃ e, Convert exampleUtils (some { exampleSource documentUnscoredPanics with
        Data := (exampleSource documentUnscoredPanics).Data.map withoutUnscored }) =
      Go.ret (some [("CVE-2021-1234", e)], none) :=
  ⟨rfl, by decide, rfl, _, rfl⟩

/-- C3, amended (exclusion gate). For every source on which `Convert` returns, a
finding that has neither a `V2Vector` nor a `V3Vector` contributes no note and no
occurrence: what `Convert` returns is what it returns for the same source with every
such finding removed from the document. -/
theorem exclusion_gate (u : Utils) (s : Source)
    (result : Option NoteOccurrencesMap × Option Error)
    (h : Convert u (some s) = Go.ret result) :
    Convert u (some { s with Data := s.Data.map withoutUnscored }) = Go.ret result := by
  cases hd : s.Data with
  | none =>
    rw [← h]
    simp [Convert, hd]
  | some d =>
    have hall : ∀ rv ∈ findingsOf d, findingOK u s rv.1 rv.2 = true := by
      have h' := h
      rw [Convert_closed u s d hd] at h'
      by_cases hall : (findingsOf d).all (fun rv => findingOK u s rv.1 rv.2) = true
      · simpa [List.all_eq_true] using hall
      · rw [if_neg hall] at h'
        cases h'
    have := withoutUnscored_runs_alike u s d hd (fun rv hrv _ => hall rv hrv)
    rw [hd] at this
    rw [this, h]

/-- C3, amended, on a document with a scored finding and a finding whose `CVSS.nvd`
has no vector: `Convert` returns, removing the latter takes one of the two findings
away, and the result stays as it is, one entry with one occurrence. -/
theorem exclusion_gate_witness :
    (findingsOf documentWithUnscored).length = 2 ∧
    (findingsOf (withoutUnscored documentWithUnscored)).length = 1 ∧
    ∃ e o, Convert exampleUtils (some (exampleSource documentWithUnscored)) =
        Go.ret (some [("CVE-2021-1234", { Note := e, Occurrences := [o] })], none) ∧
      Convert exampleUtils (some { exampleSource documentWithUnscored with
          Data := (exampleSource documentWithUnscored).Data.map withoutUnscored }) =
        Go.ret (some [("CVE-2021-1234", { Note := e, Occurrences := [o] })], none) :=
  ⟨by decide, by decide, _, _, rfl,
    exclusion_gate exampleUtils (exampleSource documentWithUnscored) _ rfl⟩

/-! ### C4: one note per note ID -/

/-- C4, as stated, fails. In a document with two findings of the same identifier,
both with a `V3Vector`, the first with score 7.5 and the second with score 9.8,
the note stored under the shared ID is the note of the first finding, not the note
of the last finding that carried a `V3Vector`. -/
theorem note_last_writer_counterexample :
    ∃ e n₁ n₂,
      Convert exampleUtils (some (exampleSource documentSharedID)) =
        Go.ret (some [("CVE-2021-1234", e)], none) ∧
      convertNote exampleUtils (exampleSource documentSharedID)
        (exampleFinding "CVE-2021-1234" (nvdV3 f7_5)) = Go.ret (some n₁) ∧
      convertNote exampleUtils (exampleSource documentSharedID)
        (exampleFinding "CVE-2021-1234" (nvdV3 f9_8)) = Go.ret (some n₂) ∧
      e.Note = some n₁ ∧ e.Note ≠ some n₂ ∧
      n₂.Vulnerability.CvssScore ≠ n₁.Vulnerability.CvssScore := by
  refine ⟨_, _, _, rfl, rfl, rfl, rfl, ?_, ?_⟩ <;> decide

/-- C4, amended. When `Convert` returns a map, no note ID occurs twice in it, and
the entry of an ID `k` holds one note: the note that `convertNote` builds from the
first finding, in document order, that passes the gate (note built, score not `0`)
with note ID `k`. -/
theorem note_unique_first_writer (u : Utils) (s : Source) (d : Json)
    (m : NoteOccurrencesMap) (hd : s.Data = some d)
    (h : Convert u (some s) = Go.ret (some m, none)) :
    (m.map Prod.fst).Nodup ∧
    ∀ k e, mapGet k m = some e →
      ∃ rv n, (findingsOf d).find? (fun rv => includedAs u s k rv.2) = some rv ∧
        convertNote u s rv.2 = Go.ret (some n) ∧ e.Note = some n := by
  obtain ⟨-, hnodup, hget⟩ := Convert_entries hd h
  refine ⟨hnodup, ?_⟩
  intro k e he
  rw [hget k] at he
  cases hf : (findingsOf d).find? (fun rv => includedAs u s k rv.2) with
  | none => simp [hf] at he
  | some rv =>
    have hinc : includedAs u s k rv.2 = true := by
      simpa using List.find?_some hf
    simp only [hf, Option.map_some', Option.some.injEq] at he
    refine ⟨rv, noteOf u s rv.2, rfl, (includedAs_true hinc).1, ?_⟩
    rw [← he]

/-- C4, amended, on the document with two findings of the same identifier, with
scores 7.5 and 9.8: the one entry holds the note with the score of the first. -/
theorem note_unique_first_writer_witness :
    ∃ m, Convert exampleUtils (some (exampleSource documentSharedID)) =
        Go.ret (some m, none) ∧
      (∃ e n, mapGet "CVE-2021-1234" m = some e ∧ e.Note = some n ∧
        n.Vulnerability.CvssScore = exampleUtils.ToFloat32 (Json.num f7_5)) ∧
      (m.map Prod.fst).Nodup ∧
      ∀ k e, mapGet k m = some e →
        ∃ rv n, (findingsOf documentSharedID).find?
            (fun rv => includedAs exampleUtils (exampleSource documentSharedID) k rv.2) = some rv ∧
          convertNote exampleUtils (exampleSource documentSharedID) rv.2 = Go.ret (some n) ∧
          e.Note = some n := by
  refine ⟨_, rfl, ⟨_, _, rfl, rfl, rfl⟩, ?_⟩
  exact note_unique_first_writer exampleUtils (exampleSource documentSharedID)
    documentSharedID _ rfl rfl

/-! ### C5: the order of the occurrences -/

/-- C5 (occurrence order). When `Convert` returns a map, the occurrence list
stored under a key `k` is, element by element, the list of the values that
`convertOccurrence` returns (for the note ID `k` and the package type of the
containing group) on the findings that pass the gate with note ID `k`, taken in
document order. -/
theorem occurrence_order (u : Utils) (s : Source) (d : Json) (m : NoteOccurrencesMap)
    (hd : s.Data = some d) (h : Convert u (some s) = Go.ret (some m, none)) :
    ∀ k e, mapGet k m = some e →
      List.Forall₂
        (fun rv o => ∃ packageType, getPackageType u rv.1 = Go.ret packageType ∧
          convertOccurrence u s rv.2 k packageType = Go.ret o)
        ((findingsOf d).filter (fun rv => includedAs u s k rv.2)) e.Occurrences := by
  obtain ⟨hok, -, hget⟩ := Convert_entries hd h
  intro k e he
  rw [hget k] at he
  cases hf : (findingsOf d).find? (fun rv => includedAs u s k rv.2) with
  | none => simp [hf] at he
  | some rv =>
    simp only [hf, Option.map_some', Option.some.injEq] at he
    rw [← he]
    simp only [List.forall₂_map_right_iff, List.forall₂_same]
    intro rv' hrv'
    obtain ⟨hmem, hinc⟩ := List.mem_filter.mp hrv'
    obtain ⟨h₁, h₂⟩ := included_occurrence (hok rv' hmem) hinc
    exact ⟨_, h₁, h₂⟩

/-- C5 on a document with three scored findings, the first and the third of the
same identifier: the entry of that identifier lists two occurrences. -/
theorem occurrence_order_witness :
    ∃ m, Convert exampleUtils (some (exampleSource documentInterleaved)) =
        Go.ret (some m, none) ∧
      (∃ e, mapGet "CVE-2021-1234" m = some e ∧ e.Occurrences.length = 2) ∧
      ∀ k e, mapGet k m = some e →
        List.Forall₂
          (fun rv o => ∃ packageType, getPackageType exampleUtils rv.1 = Go.ret packageType ∧
            convertOccurrence exampleUtils (exampleSource documentInterleaved) rv.2 k
              packageType = Go.ret o)
          ((findingsOf documentInterleaved).filter
            (fun rv => includedAs exampleUtils (exampleSource documentInterleaved) k rv.2))
          e.Occurrences :=
  ⟨_, rfl, ⟨_, rfl, rfl⟩, occurrence_order exampleUtils (exampleSource documentInterleaved)
    documentInterleaved _ rfl rfl⟩

/-! ### C6: package classification -/

/-- C6 (package classification). A result-group whose `Class` is a string other
than `lang-pkgs` has package type `OS`, whatever its `Type`; a group of class
`lang-pkgs` has the package type that `utils.ParsePackageType` gives for its `Type`
string. Every occurrence that `convertOccurrence` returns has exactly one package
issue, with the package type passed in; and every occurrence in the result of
`Convert` was built from a finding with the package type of the group that
contains that finding. -/
theorem package_classification (u : Utils) (s : Source) :
    (∀ r c, Data (Search (some r) ["Class"]) = Json.str c → c ≠ "lang-pkgs" →
      getPackageType u r = Go.ret "OS") ∧
    (∀ r t, Data (Search (some r) ["Class"]) = Json.str "lang-pkgs" →
      Data (Search (some r) ["Type"]) = Json.str t →
      getPackageType u r = Go.ret (u.ParsePackageType t)) ∧
    (∀ v noteID packageType o,
      convertOccurrence u s v noteID packageType = Go.ret (some o) →
      ∃ issue, o.Vulnerability.PackageIssue = [issue] ∧ issue.PackageType = packageType) ∧
    (∀ d m, s.Data = some d → Convert u (some s) = Go.ret (some m, none) →
      ∀ k e, mapGet k m = some e → ∀ o ∈ e.Occurrences,
        ∃ rv ∈ findingsOf d, ∃ packageType o' issue,
          getPackageType u rv.1 = Go.ret packageType ∧
          convertOccurrence u s rv.2 k packageType = Go.ret o ∧
          o = some o' ∧ o'.Vulnerability.PackageIssue = [issue] ∧
          issue.PackageType = packageType) := by
  have hissue : ∀ v noteID packageType o,
      convertOccurrence u s v noteID packageType = Go.ret (some o) →
      ∃ issue, o.Vulnerability.PackageIssue = [issue] ∧ issue.PackageType = packageType := by
    intro v noteID packageType o ho
    obtain ⟨-, -, -, -, rfl⟩ := convertOccurrence_some ho
    refine ⟨packageIssueOf v packageType, ?_, rfl⟩
    simp only [occurrenceOf]
    split <;> split <;> rfl
  refine ⟨?_, ?_, hissue, ?_⟩
  · intro r c hc hne
    simp [getPackageType, hc, assertString, hne]
  · intro r t hc ht
    simp [getPackageType, hc, ht, assertString]
  · intro d m hd h k e he o ho
    obtain ⟨hok, -, hget⟩ := Convert_entries hd h
    rw [hget k] at he
    cases hf : (findingsOf d).find? (fun rv => includedAs u s k rv.2) with
    | none => simp [hf] at he
    | some rv₀ =>
      simp only [hf, Option.map_some', Option.some.injEq] at he
      rw [← he] at ho
      obtain ⟨rv, hrv, rfl⟩ := List.mem_map.mp ho
      obtain ⟨hmem, hinc⟩ := List.mem_filter.mp hrv
      obtain ⟨h₁, h₂⟩ := included_occurrence (hok rv hmem) hinc
      obtain ⟨issue, hi₁, hi₂⟩ := hissue _ _ _ _ h₂
      exact ⟨rv, hmem, _, _, issue, h₁, h₂, rfl, hi₁, hi₂⟩

/-- C6 on a document with an operating-system group that has no `Type` and a
`lang-pkgs` group of type `npm`: the package types are `OS` and that of `npm`, and
each occurrence of the result carries the package type of its own group. -/
theorem package_classification_witness :
    getPackageType exampleUtils
      (Json.obj [("Class", Json.str "os-pkgs"), ("Vulnerabilities", Json.arr [])]) =
        Go.ret "OS" ∧
    getPackageType exampleUtils
      (Json.obj [("Class", Json.str "lang-pkgs"), ("Type", Json.str "npm")]) =
        Go.ret (exampleUtils.ParsePackageType "npm") ∧
    ∃ m o₁ o₂ i₁ i₂, Convert exampleUtils (some (exampleSource documentTwoGroups)) =
        Go.ret (some m, none) ∧
      (mapGet "CVE-2021-1234" m).map (fun e => e.Occurrences) = some [some o₁] ∧
      (mapGet "CVE-2021-5678" m).map (fun e => e.Occurrences) = some [some o₂] ∧
      o₁.Vulnerability.PackageIssue = [i₁] ∧ i₁.PackageType = "OS" ∧
      o₂.Vulnerability.PackageIssue = [i₂] ∧ i₂.PackageType = "npm" ∧
      ∀ k e, mapGet k m = some e → ∀ o ∈ e.Occurrences,
        ∃ rv ∈ findingsOf documentTwoGroups, ∃ packageType o' issue,
          getPackageType exampleUtils rv.1 = Go.ret packageType ∧
          convertOccurrence exampleUtils (exampleSource documentTwoGroups) rv.2 k packageType =
            Go.ret o ∧
          o = some o' ∧ o'.Vulnerability.PackageIssue = [issue] ∧
          issue.PackageType = packageType :=
  ⟨(package_classification exampleUtils (exampleSource documentTwoGroups)).1 _ "os-pkgs" rfl
      (by decide),
    (package_classification exampleUtils (exampleSource documentTwoGroups)).2.1 _ "npm" rfl rfl,
    _, _, _, _, _, rfl, rfl, rfl, rfl, rfl, rfl, rfl,
    (package_classification exampleUtils (exampleSource documentTwoGroups)).2.2.2
      documentTwoGroups _ rfl rfl⟩

/-! ### C7: what makes the conversion panic -/

/-- C7, as stated, fails. A document with a `Results` container and one finding
that has version 3 data but no `PrimaryURL` makes `Convert` panic. -/
theorem graceful_degradation_counterexample :
    Exists (some (exampleDocument [findingWithoutPrimaryURL])) ["Results"] = true ∧
    Convert exampleUtils (some (exampleSource (exampleDocument [findingWithoutPrimaryURL]))) =
      Go.panic :=
  ⟨rfl, rfl⟩

/-- C7, amended. For a source whose data has a `Results` container, `Convert`
returns a map and no error if and only if the loop body runs to its end on every
finding (`findingOK`): the finding has a string `VulnerabilityID` and, if its
`CVSS.nvd` is there, a string `PrimaryURL` and `Severity`, a `V2Vector` and a
`V3Vector` that are each absent or a string, only strings as children of
`References`, and, if the score of its note is not `0`, a string `SeveritySource`,
`PkgName` and `InstalledVersion` and a group with a string `Class` (and a string
`Type` when the class is `lang-pkgs`). `Convert` panics if and only if some finding
fails this condition. -/
theorem Convert_completes_iff (u : Utils) (s : Source) (d : Json) (hd : s.Data = some d)
    (_ : Exists (some d) ["Results"] = true) :
    ((∀ rv ∈ findingsOf d, findingOK u s rv.1 rv.2 = true) ↔
      ∃ m, Convert u (some s) = Go.ret (some m, none)) ∧
    ((∃ rv ∈ findingsOf d, findingOK u s rv.1 rv.2 = false) ↔
      Convert u (some s) = Go.panic) := by
  rw [Convert_closed u s d hd]
  by_cases hall : (findingsOf d).all (fun rv => findingOK u s rv.1 rv.2) = true
  · have hall' : ∀ rv ∈ findingsOf d, findingOK u s rv.1 rv.2 = true := by
      simpa [List.all_eq_true] using hall
    rw [if_pos hall]
    refine ⟨⟨fun _ => ⟨_, rfl⟩, fun _ => hall'⟩, ⟨?_, fun h => by cases h⟩⟩
    rintro ⟨rv, hmem, hrv⟩
    rw [hall' rv hmem] at hrv
    cases hrv
  · rw [if_neg hall]
    have hex : ∃ rv ∈ findingsOf d, findingOK u s rv.1 rv.2 = false := by
      simpa [List.all_eq_true] using hall
    refine ⟨⟨?_, ?_⟩, ⟨fun _ => rfl, fun _ => hex⟩⟩
    · intro hall'
      obtain ⟨rv, hmem, hrv⟩ := hex
      rw [hall' rv hmem] at hrv
      cases hrv
    · rintro ⟨m, hm⟩
      cases hm

/-- C7, amended, on a document with a `Results` container that holds a finding with
every asserted string field and a finding that has only an identifier: the condition
holds and `Convert` returns a map. -/
theorem Convert_completes_iff_witness :
    Exists (some (exampleDocument [findingMinimal, findingBare])) ["Results"] = true ∧
    (∀ rv ∈ findingsOf (exampleDocument [findingMinimal, findingBare]),
      findingOK exampleUtils (exampleSource (exampleDocument [findingMinimal, findingBare]))
        rv.1 rv.2 = true) ∧
    ∃ m, Convert exampleUtils
      (some (exampleSource (exampleDocument [findingMinimal, findingBare]))) =
        Go.ret (some m, none) :=
  ⟨rfl, by decide,
    (Convert_completes_iff exampleUtils
      (exampleSource (exampleDocument [findingMinimal, findingBare]))
      (exampleDocument [findingMinimal, findingBare]) rfl rfl).1.mp (by decide)⟩

/-! ### C8: the gate on the score -/

/-- C8, as stated, fails. A finding that carries a `V3Vector` but no `V3Score`, and
every other field the builders read, gets a note with score `0` from `convertNote`
and is dropped by `Convert`: the result is the empty map. -/
theorem zero_score_counterexample :
    hasVector (exampleFinding "CVE-2021-1234" nvdV3NoScore) = true ∧
    (∃ n, convertNote exampleUtils
        (exampleSource (exampleDocument [exampleFinding "CVE-2021-1234" nvdV3NoScore]))
        (exampleFinding "CVE-2021-1234" nvdV3NoScore) = Go.ret (some n) ∧
      n.Vulnerability.CvssScore = Float32.zero) ∧
    Convert exampleUtils
      (some (exampleSource (exampleDocument [exampleFinding "CVE-2021-1234" nvdV3NoScore]))) =
        Go.ret (some [], none) :=
  ⟨rfl, ⟨_, rfl, rfl⟩, rfl⟩

/-- C8, amended. When `Convert` returns a map, every finding that carries a
`V2Vector` or a `V3Vector` and for which `convertNote` builds a note with a score
other than `0` has an entry under its note ID, with a note, and the occurrence that
`convertOccurrence` builds from it is in the occurrence list of that entry. When the
score of the note is `0` the loop body leaves the map as it is: the finding is
dropped, as one without scoring data is. -/
theorem scored_finding_included (u : Utils) (s : Source) (d : Json) (m : NoteOccurrencesMap)
    (hd : s.Data = some d) (h : Convert u (some s) = Go.ret (some m, none)) :
    ∀ rv ∈ findingsOf d, hasVector rv.2 = true →
      ∀ n, convertNote u s rv.2 = Go.ret (some n) →
        (n.Vulnerability.CvssScore.isZero = false →
          ∃ e packageType o,
            mapGet (u.GetPrefixNoteName n.ShortDescription) m = some e ∧
            e.Note.isSome = true ∧
            getPackageType u rv.1 = Go.ret packageType ∧
            convertOccurrence u s rv.2 (u.GetPrefixNoteName n.ShortDescription) packageType =
              Go.ret (some o) ∧
            some o ∈ e.Occurrences) ∧
        (n.Vulnerability.CvssScore.isZero = true →
          ∀ list, convertFinding u s rv.1 rv.2 list = Go.ret list) := by
  obtain ⟨hok, -, hget⟩ := Convert_entries hd h
  intro rv hmem _ n hn
  constructor
  · intro hz
    have hinc : includedAs u s (u.GetPrefixNoteName n.ShortDescription) rv.2 = true := by
      simp [includedAs, hn, hz]
    obtain ⟨h₁, h₂⟩ := included_occurrence (hok rv hmem) hinc
    have hsome : ((findingsOf d).find?
        (fun rv => includedAs u s (u.GetPrefixNoteName n.ShortDescription) rv.2)).isSome = true := by
      rw [List.find?_isSome]
      exact ⟨rv, hmem, hinc⟩
    obtain ⟨rv₀, hrv₀⟩ := Option.isSome_iff_exists.mp hsome
    have hentry := hget (u.GetPrefixNoteName n.ShortDescription)
    rw [hrv₀, Option.map_some'] at hentry
    exact ⟨_, _, _, hentry, rfl, h₁, h₂,
      List.mem_map.mpr ⟨rv, List.mem_filter.mpr ⟨hmem, hinc⟩, rfl⟩⟩
  · intro hz list
    rw [convertFinding_eq]
    simp [contribution, hn, hz]

/-- C8, amended, on a document with a finding of score 7.5 and a finding with a
vector but no score: `Convert` returns a map, which has an entry for the first. -/
theorem scored_finding_included_witness :
    ∃ m, Convert exampleUtils (some (exampleSource (exampleDocument
        [exampleFinding "CVE-2021-1234" (nvdV3 f7_5),
          exampleFinding "CVE-2021-5678" nvdV3NoScore]))) = Go.ret (some m, none) ∧
      (mapGet "CVE-2021-1234" m).isSome = true ∧
      (mapGet "CVE-2021-5678" m).isSome = false ∧
      ∀ rv ∈ findingsOf (exampleDocument
          [exampleFinding "CVE-2021-1234" (nvdV3 f7_5),
            exampleFinding "CVE-2021-5678" nvdV3NoScore]),
        hasVector rv.2 = true →
        ∀ n, convertNote exampleUtils (exampleSource (exampleDocument
            [exampleFinding "CVE-2021-1234" (nvdV3 f7_5),
              exampleFinding "CVE-2021-5678" nvdV3NoScore])) rv.2 = Go.ret (some n) →
          (n.Vulnerability.CvssScore.isZero = false →
            ∃ e packageType o,
              mapGet (exampleUtils.GetPrefixNoteName n.ShortDescription) m = some e ∧
              e.Note.isSome = true ∧
              getPackageType exampleUtils rv.1 = Go.ret packageType ∧
              convertOccurrence exampleUtils (exampleSource (exampleDocument
                  [exampleFinding "CVE-2021-1234" (nvdV3 f7_5),
                    exampleFinding "CVE-2021-5678" nvdV3NoScore])) rv.2
                (exampleUtils.GetPrefixNoteName n.ShortDescription) packageType =
                  Go.ret (some o) ∧
              some o ∈ e.Occurrences) ∧
          (n.Vulnerability.CvssScore.isZero = true →
            ∀ list, convertFinding exampleUtils (exampleSource (exampleDocument
                [exampleFinding "CVE-2021-1234" (nvdV3 f7_5),
                  exampleFinding "CVE-2021-5678" nvdV3NoScore])) rv.1 rv.2 list =
              Go.ret list) :=
  ⟨_, rfl, rfl, rfl, scored_finding_included exampleUtils _ _ _ rfl rfl⟩

/-! ### C9: when the note builder returns no note -/

/-- C9, as stated, fails. A finding with a string `VulnerabilityID`, `PrimaryURL`
and `Severity` whose `CVSS.nvd` is present but holds no vector gets a note from
`convertNote`, with score `0` and no CVSS version. -/
theorem convertNote_no_vector_counterexample :
    isString (Data (Search (some (exampleFinding "CVE-2021-1234" nvdNoVector))
      ["VulnerabilityID"])) = true ∧
    isString (Data (Search (some (exampleFinding "CVE-2021-1234" nvdNoVector))
      ["PrimaryURL"])) = true ∧
    isString (Data (Search (some (exampleFinding "CVE-2021-1234" nvdNoVector))
      ["Severity"])) = true ∧
    hasVector (exampleFinding "CVE-2021-1234" nvdNoVector) = false ∧
    ∃ n, convertNote exampleUtils (exampleSource (exampleDocument []))
        (exampleFinding "CVE-2021-1234" nvdNoVector) = Go.ret (some n) ∧
      n.Vulnerability.CvssScore = Float32.zero ∧
      n.Vulnerability.CvssVersion = CVSSVersion.CVSS_VERSION_UNSPECIFIED :=
  ⟨rfl, rfl, rfl, rfl, _, rfl, rfl, rfl⟩

/-- C9, amended. For a finding with a string `VulnerabilityID`, `PrimaryURL` and
`Severity`, `convertNote` returns no note if and only if the value at `CVSS.nvd`
is nil (absent or `null`). When that value is there but holds neither a `V2Vector`
nor a `V3Vector`, and the references are strings, `convertNote` returns a note,
whose score is `0` and whose CVSS version is unspecified. -/
theorem convertNote_nil_iff (u : Utils) (s : Source) (v : Json)
    (hid : isString (Data (Search (some v) ["VulnerabilityID"])) = true)
    (hurl : isString (Data (Search (some v) ["PrimaryURL"])) = true)
    (hsev : isString (Data (Search (some v) ["Severity"])) = true) :
    (convertNote u s v = Go.ret none ↔
      isNil (Data (Search (some v) ["CVSS", "nvd"])) = true) ∧
    (isNil (Data (Search (some v) ["CVSS", "nvd"])) = false → hasVector v = false →
      (Children (Search (some v) ["References"])).all isString = true →
      ∃ n, convertNote u s v = Go.ret (some n) ∧
        n.Vulnerability.CvssScore = Float32.zero ∧
        n.Vulnerability.CvssVersion = CVSSVersion.CVSS_VERSION_UNSPECIFIED) := by
  rw [convertNote_eq, if_pos hid]
  constructor
  · cases h₂ : isNil (Data (Search (some v) ["CVSS", "nvd"])) <;>
      cases h₃ : noteFieldsOK v <;> simp
  · intro hnil hv hrefs
    simp only [hasVector, Bool.or_eq_false_iff, Bool.not_eq_false'] at hv
    have hok : noteFieldsOK v = true := by
      simp [noteFieldsOK, hurl, hsev, hv.1, hv.2, vectorOK, hrefs]
    refine ⟨noteOf u s v, by simp [hnil, hok], ?_, ?_⟩ <;> simp [noteOf, hv.1, hv.2]

/-- C9, amended, on a finding without a `CVSS` field (no note) and on a finding
whose `CVSS.nvd` holds a score but no vector (a note with score `0`). -/
theorem convertNote_nil_iff_witness :
    convertNote exampleUtils (exampleSource (exampleDocument []))
      (Json.obj [("VulnerabilityID", Json.str "CVE-2021-1234"),
        ("PrimaryURL", Json.str "https://avd.aquasec.com/nvd/cve"),
        ("Severity", Json.str "LOW")]) = Go.ret none ∧
    ∃ n, convertNote exampleUtils (exampleSource (exampleDocument []))
        (exampleFinding "CVE-2021-1234" nvdNoVector) = Go.ret (some n) ∧
      n.Vulnerability.CvssScore = Float32.zero ∧
      n.Vulnerability.CvssVersion = CVSSVersion.CVSS_VERSION_UNSPECIFIED :=
  ⟨(convertNote_nil_iff exampleUtils (exampleSource (exampleDocument []))
      (Json.obj [("VulnerabilityID", Json.str "CVE-2021-1234"),
        ("PrimaryURL", Json.str "https://avd.aquasec.com/nvd/cve"),
        ("Severity", Json.str "LOW")]) rfl rfl rfl).1.mpr rfl,
    (convertNote_nil_iff exampleUtils (exampleSource (exampleDocument []))
      (exampleFinding "CVE-2021-1234" nvdNoVector) rfl rfl rfl).2 rfl rfl rfl⟩

/-! ### C10: the two builders agree on what they skip -/

/-- C10 (builder symmetry). On a finding on which both builders return,
`convertOccurrence` returns no occurrence if and only if `convertNote` returns no
note; and no occurrence list in a map that `Convert` returns holds a nil
occurrence. -/
theorem builder_symmetry (u : Utils) (s : Source) :
    (∀ v noteID packageType n o, convertNote u s v = Go.ret n →
      convertOccurrence u s v noteID packageType = Go.ret o → (o = none ↔ n = none)) ∧
    (∀ m, Convert u (some s) = Go.ret (some m, none) →
      ∀ entry ∈ m, ∀ o ∈ entry.2.Occurrences, o ≠ none) := by
  constructor
  · intro v noteID packageType n o hn ho
    rw [convertNote_eq] at hn
    rw [convertOccurrence_eq] at ho
    cases h₁ : isString (Data (Search (some v) ["VulnerabilityID"])) <;>
      cases h₂ : isNil (Data (Search (some v) ["CVSS", "nvd"])) <;>
      cases h₃ : noteFieldsOK v <;>
      cases h₄ : packageFieldsOK v <;> simp [h₁, h₂, h₃, h₄] at hn ho <;>
      subst hn <;> subst ho <;> simp
  · intro m h entry hentry o ho
    cases hd : s.Data with
    | none => simp [Convert, hd] at h
    | some d =>
      obtain ⟨-, hnodup, hget⟩ := Convert_entries hd h
      obtain ⟨k, e⟩ := entry
      have he := mapGet_of_mem hnodup hentry
      rw [hget k] at he
      cases hf : (findingsOf d).find? (fun rv => includedAs u s k rv.2) with
      | none => simp [hf] at he
      | some rv₀ =>
        simp only [hf, Option.map_some', Option.some.injEq] at he
        rw [← he] at ho
        obtain ⟨rv, -, rfl⟩ := List.mem_map.mp ho
        simp

/-- C10 on a finding with version 3 data (a note and an occurrence), on a finding
with only an identifier (neither), and on the result of `Convert` for a document
with both. -/
theorem builder_symmetry_witness :
    (∃ n o, convertNote exampleUtils (exampleSource (exampleDocument [])) findingMinimal =
        Go.ret (some n) ∧
      convertOccurrence exampleUtils (exampleSource (exampleDocument [])) findingMinimal
        "CVE-2021-1234" "npm" = Go.ret (some o)) ∧
    ((none : Option Occurrence) = none ↔ (none : Option Note) = none) ∧
    ∃ m, Convert exampleUtils
        (some (exampleSource (exampleDocument [findingMinimal, findingBare]))) =
          Go.ret (some m, none) ∧
      m.length = 1 ∧ ∀ entry ∈ m, ∀ o ∈ entry.2.Occurrences, o ≠ none :=
  ⟨⟨_, _, rfl, rfl⟩,
    (builder_symmetry exampleUtils (exampleSource (exampleDocument []))).1 findingBare
      "CVE-2021-5678" "npm" none none rfl rfl,
    _, rfl, rfl,
    (builder_symmetry exampleUtils
      (exampleSource (exampleDocument [findingMinimal, findingBare]))).2 _ rfl⟩

/-! ### C11: each occurrence names the note it is grouped under -/

/-- C11 (occurrence-to-note reference). When `Convert` returns a map, the note
stored under a key `k` has `k` as the note ID of its short description, and every
occurrence stored under `k` has the note name `projects/<s.Project>/notes/<k>` and
the resource URI `https://<s.URI>`. -/
theorem occurrence_note_reference (u : Utils) (s : Source) (m : NoteOccurrencesMap)
    (h : Convert u (some s) = Go.ret (some m, none)) :
    ∀ k e, mapGet k m = some e →
      (∃ n, e.Note = some n ∧ u.GetPrefixNoteName n.ShortDescription = k) ∧
      ∀ o ∈ e.Occurrences, ∃ o', o = some o' ∧
        o'.NoteName = "projects/" ++ s.Project ++ "/notes/" ++ k ∧
        o'.ResourceUri = "https://" ++ s.URI := by
  intro k e he
  cases hd : s.Data with
  | none => simp [Convert, hd] at h
  | some d =>
    obtain ⟨-, -, hget⟩ := Convert_entries hd h
    rw [hget k] at he
    cases hf : (findingsOf d).find? (fun rv => includedAs u s k rv.2) with
    | none => simp [hf] at he
    | some rv₀ =>
      simp only [hf, Option.map_some', Option.some.injEq] at he
      have hinc : includedAs u s k rv₀.2 = true := by
        simpa using List.find?_some hf
      rw [← he]
      refine ⟨⟨_, rfl, (includedAs_true hinc).2.2⟩, ?_⟩
      intro o ho
      obtain ⟨rv, -, rfl⟩ := List.mem_map.mp ho
      exact ⟨_, rfl, rfl, rfl⟩

/-- C11 on the document with three scored findings under two identifiers. -/
theorem occurrence_note_reference_witness :
    ∃ m, Convert exampleUtils (some (exampleSource documentInterleaved)) =
        Go.ret (some m, none) ∧
      m.length = 2 ∧
      ∀ k e, mapGet k m = some e →
        (∃ n, e.Note = some n ∧ exampleUtils.GetPrefixNoteName n.ShortDescription = k) ∧
        ∀ o ∈ e.Occurrences, ∃ o', o = some o' ∧
          o'.NoteName =
            "projects/" ++ (exampleSource documentInterleaved).Project ++ "/notes/" ++ k ∧
          o'.ResourceUri = "https://" ++ (exampleSource documentInterleaved).URI :=
  ⟨_, rfl, rfl,
    occurrence_note_reference exampleUtils (exampleSource documentInterleaved) _ rfl⟩

/-! ### C12: the package issue -/

/-- C12 (package issue). An occurrence that `convertOccurrence` returns has exactly
one package issue: the package type passed in; the affected package `PkgName`, in
version `InstalledVersion` of kind `NORMAL`, with the CPE
`cpe:2.3:a:<SeveritySource>:<PkgName>:<InstalledVersion>:*:*:*:*:*:*:*`; and the
fixed package with the same name and CPE, in a version of kind `MAXIMUM` without a
name. -/
theorem package_issue (u : Utils) (s : Source) (v : Json) (noteID packageType : String)
    (o : Occurrence)
    (h : convertOccurrence u s v noteID packageType = Go.ret (some o)) :
    ∃ src pkgName pkgVersion,
      Data (Search (some v) ["SeveritySource"]) = Json.str src ∧
      Data (Search (some v) ["PkgName"]) = Json.str pkgName ∧
      Data (Search (some v) ["InstalledVersion"]) = Json.str pkgVersion ∧
      o.Vulnerability.PackageIssue =
        [ { PackageType := packageType
            AffectedCpeUri :=
              "cpe:2.3:a:" ++ src ++ ":" ++ pkgName ++ ":" ++ pkgVersion ++ ":*:*:*:*:*:*:*"
            AffectedPackage := pkgName
            AffectedVersion := some { Name := pkgVersion, Kind := VersionKind.NORMAL }
            FixedCpeUri :=
              "cpe:2.3:a:" ++ src ++ ":" ++ pkgName ++ ":" ++ pkgVersion ++ ":*:*:*:*:*:*:*"
            FixedPackage := pkgName
            FixedVersion := some { Name := "", Kind := VersionKind.MAXIMUM } } ] := by
  obtain ⟨-, -, -, hpkg, rfl⟩ := convertOccurrence_some h
  simp only [packageFieldsOK, Bool.and_eq_true] at hpkg
  obtain ⟨⟨h₁, h₂⟩, h₃⟩ := hpkg
  exact ⟨_, _, _, isString_eq h₁, isString_eq h₂, isString_eq h₃,
    occurrenceOf_PackageIssue u s v noteID packageType⟩

/-- C12 on a finding of the package `left-pad` 1.0.0 with severity source `nvd`. -/
theorem package_issue_witness :
    ∃ o, convertOccurrence exampleUtils (exampleSource (exampleDocument [])) findingMinimal
        "CVE-2021-1234" "npm" = Go.ret (some o) ∧
      o.Vulnerability.PackageIssue =
        [ { PackageType := "npm"
            AffectedCpeUri := "cpe:2.3:a:nvd:left-pad:1.0.0:*:*:*:*:*:*:*"
            AffectedPackage := "left-pad"
            AffectedVersion := some { Name := "1.0.0", Kind := VersionKind.NORMAL }
            FixedCpeUri := "cpe:2.3:a:nvd:left-pad:1.0.0:*:*:*:*:*:*:*"
            FixedPackage := "left-pad"
            FixedVersion := some { Name := "", Kind := VersionKind.MAXIMUM } } ] ∧
      ∃ src pkgName pkgVersion,
        Data (Search (some findingMinimal) ["SeveritySource"]) = Json.str src ∧
        Data (Search (some findingMinimal) ["PkgName"]) = Json.str pkgName ∧
        Data (Search (some findingMinimal) ["InstalledVersion"]) = Json.str pkgVersion ∧
        o.Vulnerability.PackageIssue =
          [ { PackageType := "npm"
              AffectedCpeUri :=
                "cpe:2.3:a:" ++ src ++ ":" ++ pkgName ++ ":" ++ pkgVersion ++ ":*:*:*:*:*:*:*"
              AffectedPackage := pkgName
              AffectedVersion := some { Name := pkgVersion, Kind := VersionKind.NORMAL }
              FixedCpeUri :=
                "cpe:2.3:a:" ++ src ++ ":" ++ pkgName ++ ":" ++ pkgVersion ++ ":*:*:*:*:*:*:*"
              FixedPackage := pkgName
              FixedVersion := some { Name := "", Kind := VersionKind.MAXIMUM } } ] :=
  ⟨_, rfl, by decide,
    package_issue exampleUtils (exampleSource (exampleDocument [])) findingMinimal
      "CVE-2021-1234" "npm" _ rfl⟩

/-! ### C13: the reference URLs -/

/-- C13 (reference URLs). The note that `convertNote` builds from a finding lists,
in this order, the registry URL `s.URI` labelled `Registry`, the `PrimaryURL`
labelled `PrimaryURL`, and one URL labelled `Url` per child of `References`, in the
order of the children: with `n` children the list has length `n + 2`. The
occurrence that `convertOccurrence` builds from the same finding carries the same
list. -/
theorem reference_urls (u : Utils) (s : Source) (v : Json) (n : Note)
    (h : convertNote u s v = Go.ret (some n)) :
    (∃ primaryURL urls,
      Data (Search (some v) ["PrimaryURL"]) = Json.str primaryURL ∧
      n.RelatedUrl =
        { Url := s.URI, Label := "Registry" } ::
        { Url := primaryURL, Label := "PrimaryURL" } :: urls ∧
      List.Forall₂ (fun r url => r = Json.str url.Url ∧ url.Label = "Url")
        (Children (Search (some v) ["References"])) urls) ∧
    n.RelatedUrl.length = (Children (Search (some v) ["References"])).length + 2 ∧
    ∀ noteID packageType o,
      convertOccurrence u s v noteID packageType = Go.ret (some o) →
      o.Vulnerability.RelatedUrls = n.RelatedUrl := by
  obtain ⟨-, -, hok, rfl⟩ := convertNote_some h
  simp only [noteFieldsOK, Bool.and_eq_true, List.all_eq_true] at hok
  obtain ⟨⟨⟨⟨hurl, -⟩, -⟩, -⟩, hrefs⟩ := hok
  refine ⟨⟨_, _, isString_eq hurl, noteOf_RelatedUrl u s v, ?_⟩, ?_, ?_⟩
  · simp only [List.forall₂_map_right_iff, List.forall₂_same]
    intro r hr
    exact ⟨isString_eq (hrefs r hr), trivial⟩
  · simp [noteOf_RelatedUrl]
  · intro noteID packageType o ho
    obtain ⟨-, -, -, -, rfl⟩ := convertOccurrence_some ho
    exact occurrenceOf_RelatedUrls u s v noteID packageType

/-- C13 on a finding with three references: the note lists five URLs, and so does
the occurrence. -/
theorem reference_urls_witness :
    ∃ n o, convertNote exampleUtils (exampleSource (exampleDocument []))
        findingThreeReferences = Go.ret (some n) ∧
      convertOccurrence exampleUtils (exampleSource (exampleDocument []))
        findingThreeReferences "CVE-2021-1234" "npm" = Go.ret (some o) ∧
      n.RelatedUrl =
        [ { Url := "us-docker.pkg.dev/project/repo/image@sha256:abc", Label := "Registry" },
          { Url := "https://avd.aquasec.com/nvd/cve", Label := "PrimaryURL" },
          { Url := "https://example.com/a", Label := "Url" },
          { Url := "https://example.com/b", Label := "Url" },
          { Url := "https://example.com/c", Label := "Url" } ] ∧
      o.Vulnerability.RelatedUrls = n.RelatedUrl ∧
      n.RelatedUrl.length =
        (Children (Search (some findingThreeReferences) ["References"])).length + 2 :=
  ⟨_, _, rfl, rfl, by decide,
    (reference_urls exampleUtils (exampleSource (exampleDocument []))
      findingThreeReferences _ rfl).2.2 _ _ _ rfl,
    (reference_urls exampleUtils (exampleSource (exampleDocument []))
      findingThreeReferences _ rfl).2.1⟩

/-! ### C15: severity and effective severity -/

/-- C15 (severity passthrough). An occurrence that `convertOccurrence` returns has
its effective severity equal to its severity, both being `utils.ToGrafeasSeverity`
of the `Severity` string of the finding; and the note that `convertNote` builds
from the same finding has that severity too. -/
theorem severity_passthrough (u : Utils) (s : Source) (v : Json)
    (noteID packageType : String) (o : Occurrence)
    (h : convertOccurrence u s v noteID packageType = Go.ret (some o)) :
    ∃ severity, Data (Search (some v) ["Severity"]) = Json.str severity ∧
      o.Vulnerability.EffectiveSeverity = o.Vulnerability.Severity ∧
      o.Vulnerability.Severity = u.ToGrafeasSeverity severity ∧
      ∀ n, convertNote u s v = Go.ret (some n) →
        n.Vulnerability.Severity = o.Vulnerability.Severity := by
  obtain ⟨-, -, hok, -, rfl⟩ := convertOccurrence_some h
  simp only [noteFieldsOK, Bool.and_eq_true] at hok
  obtain ⟨⟨⟨⟨-, hsev⟩, -⟩, -⟩, -⟩ := hok
  obtain ⟨h₁, h₂⟩ := occurrenceOf_Severity u s v noteID packageType
  refine ⟨_, isString_eq hsev, by rw [h₁, h₂], h₁, ?_⟩
  intro n hn
  obtain ⟨-, -, -, rfl⟩ := convertNote_some hn
  rw [noteOf_Severity, h₁]

/-- C15 on a finding of severity `CRITICAL`. -/
theorem severity_passthrough_witness :
    ∃ o n, convertOccurrence exampleUtils (exampleSource (exampleDocument []))
        findingThreeReferences "CVE-2021-1234" "npm" = Go.ret (some o) ∧
      convertNote exampleUtils (exampleSource (exampleDocument []))
        findingThreeReferences = Go.ret (some n) ∧
      n.Vulnerability.Severity = Severity.CRITICAL ∧
      ∃ severity, Data (Search (some findingThreeReferences) ["Severity"]) =
          Json.str severity ∧
        o.Vulnerability.EffectiveSeverity = o.Vulnerability.Severity ∧
        o.Vulnerability.Severity = exampleUtils.ToGrafeasSeverity severity ∧
        ∀ n, convertNote exampleUtils (exampleSource (exampleDocument []))
            findingThreeReferences = Go.ret (some n) →
          n.Vulnerability.Severity = o.Vulnerability.Severity :=
  ⟨_, _, rfl, rfl, by decide,
    severity_passthrough exampleUtils (exampleSource (exampleDocument []))
      findingThreeReferences "CVE-2021-1234" "npm" _ rfl⟩

/-! ### C14: the end-to-end example -/

/-- C14, as stated, fails. On the document of the example, whose finding has the
fields `VulnerabilityID`, `Severity`, `CVSS`, `PkgName` and `InstalledVersion` and no
other, `Convert` panics: the note builder asserts `PrimaryURL` to be a string. -/
theorem end_to_end_counterexample :
    Convert exampleUtils
      (some (endToEndSource "registry/image" "project" (endToEndFinding "CVSS:3.1/..." []))) =
        Go.panic :=
  rfl

/-- C14, amended. When the finding of the example also has a string `PrimaryURL` and
a string `SeveritySource`, and `utils.ToFloat32` coerces the number 7.5 to the
`float32` 7.5, `Convert` returns no error and a map with exactly one key,
`GetPrefixNoteName("CVE-2021-1234")`; its note has score 7.5 and CVSS version 3; its
occurrence list has exactly one occurrence, which names that note and has one
package issue, for the package `left-pad` with package type
`ParsePackageType("npm")`. -/
theorem end_to_end (u : Utils) (uri project vector primaryURL src : String)
    (hscore : u.ToFloat32 (Json.num f7_5) = f32_7_5) :
    ∃ n o issue,
      Convert u (some (endToEndSource uri project (endToEndComplete vector primaryURL src))) =
        Go.ret (some [(u.GetPrefixNoteName "CVE-2021-1234",
          { Note := some n, Occurrences := [some o] })], none) ∧
      n.Vulnerability.CvssScore = f32_7_5 ∧
      n.Vulnerability.CvssVersion = CVSSVersion.CVSS_VERSION_3 ∧
      o.NoteName = "projects/" ++ project ++ "/notes/" ++ u.GetPrefixNoteName "CVE-2021-1234" ∧
      o.Vulnerability.PackageIssue = [issue] ∧
      issue.AffectedPackage = "left-pad" ∧
      issue.PackageType = u.ParsePackageType "npm" := by
  have hnote : noteOf u (endToEndSource uri project (endToEndComplete vector primaryURL src))
      (endToEndComplete vector primaryURL src) =
      { ShortDescription := "CVE-2021-1234"
        LongDescription := vector
        RelatedUrl :=
          [ { Url := uri, Label := "Registry" }, { Url := primaryURL, Label := "PrimaryURL" } ]
        Vulnerability :=
          { Details := [ { AffectedCpeUri := "N/A", AffectedPackage := "N/A" } ]
            Severity := u.ToGrafeasSeverity "HIGH"
            SourceUpdateTime := u.ToGRPCTime Json.null
            CvssVersion := CVSSVersion.CVSS_VERSION_3
            CvssScore := f32_7_5
            CvssV3 := u.ToCVSSv3 f32_7_5 vector } } := by
    simp [noteOf, endToEndComplete, endToEndFinding, endToEndSource, Search, Data, searchSeg,
      lookupKey, isNil, stringOf, Children, hscore]
  have hfind : findingsOf (endToEndDocument (endToEndComplete vector primaryURL src)) =
      [(Json.obj [("Class", Json.str "lang-pkgs"), ("Type", Json.str "npm"),
          ("Vulnerabilities", Json.arr [endToEndComplete vector primaryURL src])],
        endToEndComplete vector primaryURL src)] := rfl
  have hok : findingOK u (endToEndSource uri project (endToEndComplete vector primaryURL src))
      (Json.obj [("Class", Json.str "lang-pkgs"), ("Type", Json.str "npm"),
          ("Vulnerabilities", Json.arr [endToEndComplete vector primaryURL src])])
      (endToEndComplete vector primaryURL src) = true := by
    rw [findingOK, hnote]
    simp [endToEndComplete, endToEndFinding, Search, Data, searchSeg, lookupKey, isNil,
      isString, stringOf, Children, noteFieldsOK, vectorOK, groupFieldsOK, packageFieldsOK]
  have hinc : included u (endToEndSource uri project (endToEndComplete vector primaryURL src))
      (endToEndComplete vector primaryURL src) = true := by
    rw [included, hnote]
    simp [endToEndComplete, endToEndFinding, Search, Data, searchSeg, lookupKey, isNil]
    rfl
  have hpt : packageTypeOf u (Json.obj [("Class", Json.str "lang-pkgs"),
      ("Type", Json.str "npm"),
      ("Vulnerabilities", Json.arr [endToEndComplete vector primaryURL src])]) =
      u.ParsePackageType "npm" := by
    simp [packageTypeOf, Search, Data, searchSeg, lookupKey, stringOf]
  refine ⟨noteOf u (endToEndSource uri project (endToEndComplete vector primaryURL src))
      (endToEndComplete vector primaryURL src),
    occurrenceOf u (endToEndSource uri project (endToEndComplete vector primaryURL src))
      (endToEndComplete vector primaryURL src)
      (u.GetPrefixNoteName "CVE-2021-1234") (u.ParsePackageType "npm"),
    packageIssueOf (endToEndComplete vector primaryURL src) (u.ParsePackageType "npm"),
    ?_, ?_, ?_, rfl, occurrenceOf_PackageIssue _ _ _ _ _, ?_, rfl⟩
  · rw [Convert_closed u _ _ rfl, hfind]
    simp only [List.all_cons, List.all_nil, Bool.and_true, List.filter_cons, List.filter_nil,
      hok, hinc, if_true, List.map_cons, List.map_nil, contributionOf, hpt]
    have hid : (noteOf u (endToEndSource uri project (endToEndComplete vector primaryURL src))
        (endToEndComplete vector primaryURL src)).ShortDescription = "CVE-2021-1234" := by
      rw [hnote]
    rw [hid]
    simp [collect, addEntry, mapGet, mapSet]
  · rw [hnote]
  · rw [hnote]
  · simp [packageIssueOf, endToEndComplete, endToEndFinding, Search, Data, searchSeg,
      lookupKey, stringOf]

/-- C14, amended, with the helpers of the examples: they coerce 7.5 to the `float32`
7.5, and the result has the one key `CVE-2021-1234`. -/
theorem end_to_end_witness :
    exampleUtils.ToFloat32 (Json.num f7_5) = f32_7_5 ∧
    ∃ n o issue,
      Convert exampleUtils (some (endToEndSource "registry/image" "project"
        (endToEndComplete "CVSS:3.1/..." "https://avd.aquasec.com/nvd/cve-2021-1234" "nvd"))) =
        Go.ret (some [(exampleUtils.GetPrefixNoteName "CVE-2021-1234",
          { Note := some n, Occurrences := [some o] })], none) ∧
      n.Vulnerability.CvssScore = f32_7_5 ∧
      n.Vulnerability.CvssVersion = CVSSVersion.CVSS_VERSION_3 ∧
      o.NoteName =
        "projects/" ++ "project" ++ "/notes/" ++ exampleUtils.GetPrefixNoteName "CVE-2021-1234" ∧
      o.Vulnerability.PackageIssue = [issue] ∧
      issue.AffectedPackage = "left-pad" ∧
      issue.PackageType = exampleUtils.ParsePackageType "npm" :=
  ⟨by decide,
    end_to_end exampleUtils "registry/image" "project" "CVSS:3.1/..."
      "https://avd.aquasec.com/nvd/cve-2021-1234" "nvd" (by decide)⟩

/-! ### C16: the first writer wins -/

/-- C16 (first-writer-wins deduplication). When `Convert` returns a map, the note
stored under a key `k` is the note that `convertNote` builds from the head of the
list of findings that pass the gate with note ID `k`. And a run of the loop body
never replaces or alters the note of an entry that is already in the map: the entry
keeps its note, and its occurrence list stays as it is or gets one occurrence
appended. -/
theorem first_writer_wins (u : Utils) (s : Source) :
    (∀ d m, s.Data = some d → Convert u (some s) = Go.ret (some m, none) →
      ∀ k e, mapGet k m = some e →
        ∃ rv rest, (findingsOf d).filter (fun rv => includedAs u s k rv.2) = rv :: rest ∧
          convertNote u s rv.2 = Go.ret e.Note) ∧
    (∀ r v list list' k e, convertFinding u s r v list = Go.ret list' →
      mapGet k list = some e →
      ∃ e', mapGet k list' = some e' ∧ e'.Note = e.Note ∧
        (e'.Occurrences = e.Occurrences ∨ ∃ o, e'.Occurrences = e.Occurrences ++ [o])) := by
  constructor
  · intro d m hd h k e he
    obtain ⟨-, -, hget⟩ := Convert_entries hd h
    rw [hget k] at he
    cases hf : (findingsOf d).find? (fun rv => includedAs u s k rv.2) with
    | none => simp [hf] at he
    | some rv =>
      obtain ⟨rest, hrest⟩ := filter_of_find? hf
      have hinc : includedAs u s k rv.2 = true := by
        simpa using List.find?_some hf
      simp only [hf, Option.map_some', Option.some.injEq] at he
      refine ⟨rv, rest, hrest, ?_⟩
      rw [← he]
      exact (includedAs_true hinc).1
  · intro r v list list' k e hstep he
    rcases convertFinding_ret hstep with rfl | ⟨c, rfl⟩
    · exact ⟨e, he, rfl, Or.inl rfl⟩
    · rw [mapGet_addEntry_of_some c he]
      by_cases hk : c.noteID = k
      · rw [if_pos hk]
        exact ⟨_, rfl, rfl, Or.inr ⟨c.occ, rfl⟩⟩
      · rw [if_neg hk]
        exact ⟨e, rfl, rfl, Or.inl rfl⟩

/-- C16 on the document with two findings of the same identifier, with scores 7.5
and 9.8: the stored note has the score of the first; and running the loop body on
the first finding and then on the second keeps the note that the first run stored. -/
theorem first_writer_wins_witness :
    (∃ m n, Convert exampleUtils (some (exampleSource documentSharedID)) =
        Go.ret (some m, none) ∧
      (mapGet "CVE-2021-1234" m).map (fun e => e.Note) = some (some n) ∧
      n.Vulnerability.CvssScore = exampleUtils.ToFloat32 (Json.num f7_5) ∧
      ∀ k e, mapGet k m = some e →
        ∃ rv rest, (findingsOf documentSharedID).filter
            (fun rv => includedAs exampleUtils (exampleSource documentSharedID) k rv.2) =
              rv :: rest ∧
          convertNote exampleUtils (exampleSource documentSharedID) rv.2 = Go.ret e.Note) ∧
    ∃ list₁ list₂,
      convertFinding exampleUtils (exampleSource documentSharedID)
        (Json.obj [("Class", Json.str "os-pkgs")])
        (exampleFinding "CVE-2021-1234" (nvdV3 f7_5)) [] = Go.ret list₁ ∧
      convertFinding exampleUtils (exampleSource documentSharedID)
        (Json.obj [("Class", Json.str "os-pkgs")])
        (exampleFinding "CVE-2021-1234" (nvdV3 f9_8)) list₁ = Go.ret list₂ ∧
      (mapGet "CVE-2021-1234" list₁).isSome = true ∧
      ∀ k e, mapGet k list₁ = some e →
        ∃ e', mapGet k list₂ = some e' ∧ e'.Note = e.Note ∧
          (e'.Occurrences = e.Occurrences ∨ ∃ o, e'.Occurrences = e.Occurrences ++ [o]) := by
  refine ⟨⟨_, _, rfl, rfl, rfl, ?_⟩, _, _, rfl, rfl, rfl, ?_⟩
  · exact (first_writer_wins exampleUtils (exampleSource documentSharedID)).1
      documentSharedID _ rfl rfl
  · intro k e he
    exact (first_writer_wins exampleUtils (exampleSource documentSharedID)).2
      (Json.obj [("Class", Json.str "os-pkgs")])
      (exampleFinding "CVE-2021-1234" (nvdV3 f9_8)) _ _ k e rfl he

/-! ### C17: no note without a score -/

/-- C17 (no note without a CVSS score). When `Convert` returns a map, every note in
it was built by `convertNote` from a finding of the document and has a score other
than `0`; its CVSS version is 3 and its long description the `V3Vector` of that
finding when the finding has one, and otherwise its CVSS version is 2 and its long
description the `V2Vector` of that finding. -/
theorem no_note_without_score (u : Utils) (s : Source) (d : Json) (m : NoteOccurrencesMap)
    (hd : s.Data = some d) (h : Convert u (some s) = Go.ret (some m, none)) :
    ∀ k e, mapGet k m = some e →
      ∃ n rv, e.Note = some n ∧ rv ∈ findingsOf d ∧
        convertNote u s rv.2 = Go.ret (some n) ∧
        n.Vulnerability.CvssScore.isZero = false ∧
        ((isNil (Data (Search (Search (some rv.2) ["CVSS", "nvd"]) ["V3Vector"])) = false ∧
            n.Vulnerability.CvssVersion = CVSSVersion.CVSS_VERSION_3 ∧
            Json.str n.LongDescription =
              Data (Search (Search (some rv.2) ["CVSS", "nvd"]) ["V3Vector"])) ∨
          (isNil (Data (Search (Search (some rv.2) ["CVSS", "nvd"]) ["V3Vector"])) = true ∧
            isNil (Data (Search (Search (some rv.2) ["CVSS", "nvd"]) ["V2Vector"])) = false ∧
            n.Vulnerability.CvssVersion = CVSSVersion.CVSS_VERSION_2 ∧
            Json.str n.LongDescription =
              Data (Search (Search (some rv.2) ["CVSS", "nvd"]) ["V2Vector"]))) := by
  intro k e he
  obtain ⟨-, -, hget⟩ := Convert_entries hd h
  rw [hget k] at he
  cases hf : (findingsOf d).find? (fun rv => includedAs u s k rv.2) with
  | none => simp [hf] at he
  | some rv =>
    have hinc : includedAs u s k rv.2 = true := by
      simpa using List.find?_some hf
    have hmem : rv ∈ findingsOf d := List.mem_of_find?_eq_some hf
    simp only [hf, Option.map_some', Option.some.injEq] at he
    obtain ⟨hn, hz, -⟩ := includedAs_true hinc
    obtain ⟨-, -, hok, -⟩ := convertNote_some hn
    simp only [noteFieldsOK, Bool.and_eq_true] at hok
    obtain ⟨⟨⟨-, hv2⟩, hv3⟩, -⟩ := hok
    refine ⟨noteOf u s rv.2, rv, by rw [← he], hmem, hn, hz, ?_⟩
    rcases noteOf_cvss u s rv.2 hz with ⟨h₃, hver, hdesc⟩ | ⟨h₃, h₂, hver, hdesc⟩
    · exact Or.inl ⟨h₃, hver, by rw [hdesc, vector_string hv3 h₃]⟩
    · exact Or.inr ⟨h₃, h₂, hver, by rw [hdesc, vector_string hv2 h₂]⟩

/-- C17 on a document with a version 2 finding, a version 3 finding, a finding with
both versions and a finding without a vector: the map has two entries. -/
theorem no_note_without_score_witness :
    ∃ m, Convert exampleUtils (some (exampleSource documentMixed)) = Go.ret (some m, none) ∧
      m.length = 2 ∧
      ∀ k e, mapGet k m = some e →
        ∃ n rv, e.Note = some n ∧ rv ∈ findingsOf documentMixed ∧
          convertNote exampleUtils (exampleSource documentMixed) rv.2 = Go.ret (some n) ∧
          n.Vulnerability.CvssScore.isZero = false ∧
          ((isNil (Data (Search (Search (some rv.2) ["CVSS", "nvd"]) ["V3Vector"])) = false ∧
              n.Vulnerability.CvssVersion = CVSSVersion.CVSS_VERSION_3 ∧
              Json.str n.LongDescription =
                Data (Search (Search (some rv.2) ["CVSS", "nvd"]) ["V3Vector"])) ∨
            (isNil (Data (Search (Search (some rv.2) ["CVSS", "nvd"]) ["V3Vector"])) = true ∧
              isNil (Data (Search (Search (some rv.2) ["CVSS", "nvd"]) ["V2Vector"])) = false ∧
              n.Vulnerability.CvssVersion = CVSSVersion.CVSS_VERSION_2 ∧
              Json.str n.LongDescription =
                Data (Search (Search (some rv.2) ["CVSS", "nvd"]) ["V2Vector"]))) :=
  ⟨_, rfl, rfl,
    no_note_without_score exampleUtils (exampleSource documentMixed) documentMixed _ rfl rfl⟩

/-! ### C18: note and occurrence agree on the CVSS data -/

/-- C18 (note/occurrence CVSS agreement). When `Convert` returns a map, every
occurrence in it was built by `convertOccurrence` from a finding of the document,
and its CVSS version, score and long description are those of the note that
`convertNote` builds from the same finding. The builders themselves can disagree,
on a finding whose `CVSS.nvd` is there without any vector: the note keeps the score
`0` and the occurrence the coerced `CVSS.nvd.V2Score` it was seeded with; such a
finding does not pass the gate. -/
theorem note_occurrence_agreement (u : Utils) (s : Source) :
    (∀ d m, s.Data = some d → Convert u (some s) = Go.ret (some m, none) →
      ∀ k e, mapGet k m = some e → ∀ o ∈ e.Occurrences,
        ∃ rv ∈ findingsOf d, ∃ packageType o' n,
          getPackageType u rv.1 = Go.ret packageType ∧
          convertOccurrence u s rv.2 k packageType = Go.ret (some o') ∧
          o = some o' ∧
          convertNote u s rv.2 = Go.ret (some n) ∧
          o'.Vulnerability.CvssVersion = n.Vulnerability.CvssVersion ∧
          o'.Vulnerability.CvssScore = n.Vulnerability.CvssScore ∧
          o'.Vulnerability.LongDescription = n.LongDescription) ∧
    (∀ v noteID packageType n o, hasVector v = false →
      convertNote u s v = Go.ret (some n) →
      convertOccurrence u s v noteID packageType = Go.ret (some o) →
      n.Vulnerability.CvssScore = Float32.zero ∧
      o.Vulnerability.CvssScore =
        u.ToFloat32 (Data (Search (some v) ["CVSS", "nvd", "V2Score"])) ∧
      passesGate u s v = false) := by
  constructor
  · intro d m hd h k e he o ho
    obtain ⟨hok, -, hget⟩ := Convert_entries hd h
    rw [hget k] at he
    cases hf : (findingsOf d).find? (fun rv => includedAs u s k rv.2) with
    | none => simp [hf] at he
    | some rv₀ =>
      simp only [hf, Option.map_some', Option.some.injEq] at he
      rw [← he] at ho
      obtain ⟨rv, hrv, rfl⟩ := List.mem_map.mp ho
      obtain ⟨hmem, hinc⟩ := List.mem_filter.mp hrv
      obtain ⟨h₁, h₂⟩ := included_occurrence (hok rv hmem) hinc
      obtain ⟨hn, -, -⟩ := includedAs_true hinc
      have hincl : included u s rv.2 = true := by
        have := includedAs_eq k (hok rv hmem)
        rw [hinc] at this
        simp only [Bool.true_eq, Bool.and_eq_true] at this
        exact this.1
      obtain ⟨hv, hsc, hdesc⟩ := occurrenceOf_cvss u s rv.2 k (packageTypeOf u rv.1)
        (included_hasVector hincl)
      exact ⟨rv, hmem, _, _, _, h₁, h₂, rfl, hn, hv, hsc, hdesc⟩
  · intro v noteID packageType n o hv hn ho
    obtain ⟨-, -, -, rfl⟩ := convertNote_some hn
    obtain ⟨-, -, -, -, rfl⟩ := convertOccurrence_some ho
    simp only [hasVector, Bool.or_eq_false_iff, Bool.not_eq_false'] at hv
    refine ⟨by simp [noteOf, hv.1, hv.2], by simp [occurrenceOf, hv.1, hv.2], ?_⟩
    simp [passesGate, hn, noteOf, hv.1, hv.2, Float32.isZero, Float32.zero]

/-- C18 on a document with findings of either version and a finding whose
`CVSS.nvd` holds the version 2 score 5.0 without a vector: on the latter the note
has score `0` and the occurrence the score 5.0. -/
theorem note_occurrence_agreement_witness :
    (∃ m, Convert exampleUtils (some (exampleSource documentMixed)) = Go.ret (some m, none) ∧
      totalOccurrences m = 3 ∧
      ∀ k e, mapGet k m = some e → ∀ o ∈ e.Occurrences,
        ∃ rv ∈ findingsOf documentMixed, ∃ packageType o' n,
          getPackageType exampleUtils rv.1 = Go.ret packageType ∧
          convertOccurrence exampleUtils (exampleSource documentMixed) rv.2 k packageType =
            Go.ret (some o') ∧
          o = some o' ∧
          convertNote exampleUtils (exampleSource documentMixed) rv.2 = Go.ret (some n) ∧
          o'.Vulnerability.CvssVersion = n.Vulnerability.CvssVersion ∧
          o'.Vulnerability.CvssScore = n.Vulnerability.CvssScore ∧
          o'.Vulnerability.LongDescription = n.LongDescription) ∧
    ∃ n o, convertNote exampleUtils (exampleSource documentMixed)
        (exampleFinding "CVE-2022-9999" nvdNoVector) = Go.ret (some n) ∧
      convertOccurrence exampleUtils (exampleSource documentMixed)
        (exampleFinding "CVE-2022-9999" nvdNoVector) "CVE-2022-9999" "npm" = Go.ret (some o) ∧
      o.Vulnerability.CvssScore ≠ n.Vulnerability.CvssScore ∧
      n.Vulnerability.CvssScore = Float32.zero ∧
      o.Vulnerability.CvssScore = exampleUtils.ToFloat32
        (Data (Search (some (exampleFinding "CVE-2022-9999" nvdNoVector))
          ["CVSS", "nvd", "V2Score"])) ∧
      passesGate exampleUtils (exampleSource documentMixed)
        (exampleFinding "CVE-2022-9999" nvdNoVector) = false := by
  refine ⟨⟨_, rfl, rfl, ?_⟩, _, _, rfl, rfl, by decide, ?_⟩
  · exact (note_occurrence_agreement exampleUtils (exampleSource documentMixed)).1
      documentMixed _ rfl rfl
  · exact (note_occurrence_agreement exampleUtils (exampleSource documentMixed)).2
      (exampleFinding "CVE-2022-9999" nvdNoVector) "CVE-2022-9999" "npm" _ _ rfl rfl rfl

/-! ### C19: the shape of the result -/

/-- C19 (result well-formedness). For a source with a data payload: a document
without findings (no result-group, or no finding in any group) gives the empty map
and no error. And when `Convert` returns a map, a key `k` is in it if and only if
some finding passes the gate with note ID `k`; every entry has a note and at least
one occurrence; and the occurrences of all entries are as many as the findings that
pass the gate. -/
theorem result_well_formed (u : Utils) (s : Source) (d : Json) (hd : s.Data = some d) :
    (findingsOf d = [] → Convert u (some s) = Go.ret (some [], none)) ∧
    ∀ m, Convert u (some s) = Go.ret (some m, none) →
      (∀ k, (mapGet k m).isSome = true ↔
        ∃ rv ∈ findingsOf d, includedAs u s k rv.2 = true) ∧
      (∀ entry ∈ m, entry.2.Note.isSome = true ∧ entry.2.Occurrences ≠ []) ∧
      totalOccurrences m =
        ((findingsOf d).filter (fun rv => passesGate u s rv.2)).length := by
  constructor
  · intro hnil
    rw [Convert_closed u s d hd, hnil]
    rfl
  · intro m h
    obtain ⟨hok, hnodup, hget⟩ := Convert_entries hd h
    refine ⟨?_, ?_, ?_⟩
    · intro k
      rw [hget k, Option.isSome_map', List.find?_isSome]
    · intro entry hentry
      obtain ⟨k, e⟩ := entry
      have he := mapGet_of_mem hnodup hentry
      rw [hget k] at he
      cases hf : (findingsOf d).find? (fun rv => includedAs u s k rv.2) with
      | none => simp [hf] at he
      | some rv =>
        obtain ⟨rest, hrest⟩ := filter_of_find? hf
        simp only [hf, Option.map_some', Option.some.injEq] at he
        rw [← he]
        simp [hrest]
    · rw [Convert_collect hd h, totalOccurrences_collect, List.length_map]
      have hfilter : (findingsOf d).filter (fun rv => passesGate u s rv.2) =
          (findingsOf d).filter (fun rv => included u s rv.2) := by
        apply List.filter_congr
        intro rv hrv
        exact passesGate_eq (hok rv hrv)
      rw [hfilter]
      simp [totalOccurrences]

/-- C19 on a document without result-groups, and on the document with four
findings of which three pass the gate, under two identifiers. -/
theorem result_well_formed_witness :
    Convert exampleUtils (some (exampleSource (Json.obj [("Results", Json.arr [])]))) =
      Go.ret (some [], none) ∧
    Convert exampleUtils (some (exampleSource (exampleDocument []))) =
      Go.ret (some [], none) ∧
    ∃ m, Convert exampleUtils (some (exampleSource documentMixed)) = Go.ret (some m, none) ∧
      m.length = 2 ∧ totalOccurrences m = 3 ∧
      (∀ k, (mapGet k m).isSome = true ↔
        ∃ rv ∈ findingsOf documentMixed,
          includedAs exampleUtils (exampleSource documentMixed) k rv.2 = true) ∧
      (∀ entry ∈ m, entry.2.Note.isSome = true ∧ entry.2.Occurrences ≠ []) ∧
      totalOccurrences m =
        ((findingsOf documentMixed).filter
          (fun rv => passesGate exampleUtils (exampleSource documentMixed) rv.2)).length :=
  ⟨(result_well_formed exampleUtils (exampleSource (Json.obj [("Results", Json.arr [])]))
      (Json.obj [("Results", Json.arr [])]) rfl).1 rfl,
    (result_well_formed exampleUtils (exampleSource (exampleDocument []))
      (exampleDocument []) rfl).1 rfl,
    _, rfl, rfl, rfl,
    (result_well_formed exampleUtils (exampleSource documentMixed) documentMixed rfl).2 _ rfl⟩

/-! ### C20: `newApp` -/

namespace Cli

/-- C20 (`newApp`). `newApp` returns no app and the error that wraps
`ErrMissingRequiredFields` if and only if one of `version`, `commit` and `date` is
the empty string. When all three are non-empty it returns an app and no error,
whether or not `date` parses as a time, and the metadata of the app holds the three
strings as they are under the keys `version`, `commit` and `date`. -/
theorem newApp_required_fields (env : TimeEnv) (impCmd attestCmd : Command)
    (version commit date : String) :
    ((version = "" ∨ commit = "" ∨ date = "") ↔
      newApp env impCmd attestCmd version commit date =
        (none, some (CliError.Wrap CliError.ErrMissingRequiredFields
          "version, commit, and date must be set"))) ∧
    ((version = "" ∨ commit = "" ∨ date = "") ↔
      ∃ err, (newApp env impCmd attestCmd version commit date).2 = some err) ∧
    (version ≠ "" → commit ≠ "" → date ≠ "" →
      ∃ app, newApp env impCmd attestCmd version commit date = (some app, none) ∧
        metaGet "version" app.Metadata = some (MetaValue.str version) ∧
        metaGet "commit" app.Metadata = some (MetaValue.str commit) ∧
        metaGet "date" app.Metadata = some (MetaValue.str date)) := by
  by_cases h : version = "" ∨ commit = "" ∨ date = ""
  · refine ⟨⟨fun _ => by simp [newApp, h], fun _ => h⟩,
      ⟨fun _ => ⟨CliError.Wrap CliError.ErrMissingRequiredFields
        "version, commit, and date must be set", by simp [newApp, h]⟩, fun _ => h⟩, ?_⟩
    intro hv hc hd
    rcases h with h | h | h
    · exact absurd h hv
    · exact absurd h hc
    · exact absurd h hd
  · refine ⟨⟨fun h' => absurd h' h, fun h' => ?_⟩, ⟨fun h' => absurd h' h, fun h' => ?_⟩, ?_⟩
    · simp [newApp, h] at h'
    · obtain ⟨err, herr⟩ := h'
      simp [newApp, h] at herr
    · intro _ _ _
      have happ : ∃ app, newApp env impCmd attestCmd version commit date = (some app, none) ∧
          app.Metadata = [(metaKeyVersion, MetaValue.str version),
            (metaKeyCommit, MetaValue.str commit), (metaKeyDate, MetaValue.str date)] := by
        unfold newApp
        rw [if_neg h]
        exact ⟨_, rfl, rfl⟩
      obtain ⟨app, happ, hmeta⟩ := happ
      refine ⟨app, happ, ?_, ?_, ?_⟩ <;>
        simp [hmeta, metaGet, metaKeyVersion, metaKeyCommit, metaKeyDate]

/-- C20 on a build with version, commit and a date that does not parse (an app, no
error, the three strings in the metadata), and on a build without commit (the
error, no app). -/
theorem newApp_required_fields_witness :
    (∃ app, newApp exampleTimeEnv { Name := "import" } { Name := "attestation" }
        "v0.1.0" "abc1234" "unknown" = (some app, none) ∧
      metaGet "version" app.Metadata = some (MetaValue.str "v0.1.0") ∧
      metaGet "commit" app.Metadata = some (MetaValue.str "abc1234") ∧
      metaGet "date" app.Metadata = some (MetaValue.str "unknown")) ∧
    newApp exampleTimeEnv { Name := "import" } { Name := "attestation" }
        "v0.1.0" "" "2023-01-01T00:00:00Z" =
      (none, some (CliError.Wrap CliError.ErrMissingRequiredFields
        "version, commit, and date must be set")) :=
  ⟨(newApp_required_fields exampleTimeEnv { Name := "import" } { Name := "attestation" }
      "v0.1.0" "abc1234" "unknown").2.2 (by decide) (by decide) (by decide),
    (newApp_required_fields exampleTimeEnv { Name := "import" } { Name := "attestation" }
      "v0.1.0" "" "2023-01-01T00:00:00Z").1.mp (by decide)⟩

end Cli


end Aactl
